import Mathlib

/-!
# Verification of the InquiryOS pipeline orchestrator

Shallow embedding of the research-pipeline orchestrator
(`apps/api/app/services/pipeline_orchestrator.py`), the web fetcher's URL
validation (`apps/api/app/services/web_fetcher.py`), and the run-listing
endpoint (`apps/api/app/api/v1/endpoints/research_runs.py`).

Modelling conventions:
* The database session is modelled as an explicit `DB` state holding the rows
  of one research run (the orchestrator's queries all filter on a single
  `run_id`, so the per-run rows are the whole relevant state).  Each stage
  function either returns a fully committed new state (`Except.ok`) or an
  error with no state change (`Except.error`) — faithful to the code, which
  performs a single `commit()` at the end of a stage and raises before it on
  any failure, with `execute` rolling back the uncommitted unit.
* Wall-clock reads (`datetime.now`) are modelled by a monotone `Nat` counter
  stored in the state; `duration_ms` is the difference of two reads.
* External collaborators (DuckDuckGo search, the HTTP download + HTML text
  extraction of the fetcher, the LLM client, `json.loads` +
  `SynthesisOutput.model_validate`) are oracles passed in a `Collab` record.
  URL validation (`_validate_url`) is pure code and is embedded directly.
* Python `float` values that the code compares and caps (`confidence`,
  `coverage_ratio`, the literals 0.2/0.3/0.4) are modelled as `Rat`.
* Python strings are Lean `String`s; slicing, `strip()` and `lower()` are
  modelled character-wise (ASCII semantics).
-/

namespace InquiryOS

/-! ## Python string helpers -/

/-- Characters stripped by Python's `str.strip()` (ASCII whitespace). -/
def isPySpace (c : Char) : Bool :=
  c = ' ' || c = '\t' || c = '\n' || c = '\x0d' || c = '\x0b' || c = '\x0c'

/-- Model of Python `str.strip()`. -/
def pyStrip (s : String) : String :=
  String.mk (((s.toList.dropWhile isPySpace).reverse.dropWhile isPySpace).reverse)

/-- Model of Python `str.rstrip()`. -/
def pyRstrip (s : String) : String :=
  String.mk ((s.toList.reverse.dropWhile isPySpace).reverse)

/-- Model of Python slicing `s[:n]` (by code points). -/
def pySlice (s : String) (n : Nat) : String :=
  String.mk (s.toList.take n)

/-- Model of Python `len(s)` (code points). -/
def pyLen (s : String) : Nat := s.toList.length

/-- Decimal digit string to number, Python `int(s)` on a digit-only string. -/
def digitsToNat (l : List Char) : Nat :=
  l.foldl (fun n c => n * 10 + (c.toNat - '0'.toNat)) 0

/-- Model of Python `str.split(sep)` for a one-character separator,
structurally recursive (splitting never drops or merges pieces). -/
def splitOnChar : List Char → Char → List (List Char)
  | [], _ => [[]]
  | x :: xs, c =>
    if x = c then [] :: splitOnChar xs c
    else
      match splitOnChar xs c with
      | [] => [[x]]
      | p :: ps => (x :: p) :: ps

/-- Model of Python `str.split("::")` (used for the IPv6 gap). -/
def splitDoubleColon : List Char → List (List Char)
  | [] => [[]]
  | ':' :: ':' :: xs =>
    [] :: (match splitDoubleColon xs with
           | [] => [[]]
           | ps => ps)
  | x :: xs =>
    match splitDoubleColon xs with
    | [] => [[x]]
    | p :: ps => (x :: p) :: ps

/-! ## Citation scanning (`re.compile(r"\[\d+\]")` and `re.findall(r"\[(\d+)\]")`)

pipeline_orchestrator.py lines 716-760.  `\d` is modelled as ASCII
digits. -/

/-- After `[` and at least one digit: accept further digits then `]`. -/
def citClose : List Char → Bool
  | [] => false
  | ']' :: _ => true
  | c :: rest => c.isDigit && citClose rest

/-- After `[`: require one digit, then `citClose`. -/
def citAfterOpen : List Char → Bool
  | [] => false
  | c :: rest => c.isDigit && citClose rest

/-- Scan for a `[digits]` match anywhere (Python `pattern.search`). -/
def citScan : List Char → Bool
  | [] => false
  | '[' :: rest => citAfterOpen rest || citScan rest
  | _ :: rest => citScan rest

/-- Model of `bool(citation_pattern.search(text))` in `_has_citation`. -/
def hasCitation (s : String) : Bool := citScan s.toList

/-- Longest digit prefix and the remainder. -/
def takeDigits : List Char → List Char × List Char
  | [] => ([], [])
  | c :: rest =>
    if c.isDigit then
      let (ds, r) := takeDigits rest
      (c :: ds, r)
    else ([], c :: rest)

/-- Model of `re.findall(r"\[(\d+)\]", text)` followed by `int(m)`:
the numbers of all non-overlapping `[digits]` matches, left to right. -/
def citExtractAux : Nat → List Char → List Nat
  | 0, _ => []
  | _, [] => []
  | fuel + 1, '[' :: rest =>
    match takeDigits rest with
    | ([], _) => citExtractAux fuel rest
    | (d :: ds, r) =>
      match r with
      | ']' :: r2 => digitsToNat (d :: ds) :: citExtractAux fuel r2
      | _ => citExtractAux fuel rest
  | fuel + 1, _ :: rest => citExtractAux fuel rest

/-- Citation numbers of a string.  The fuel (the string length) is enough for
a scan that consumes at least one character per step. -/
def extractCitations (s : String) : List Nat :=
  citExtractAux s.toList.length s.toList

/-! ## URL parsing (model of `urllib.parse.urlparse` components used by
`_validate_url`: `scheme`, `netloc`, `hostname`) -/

/-- Characters allowed in a URL scheme after the first letter. -/
def isSchemeChar (c : Char) : Bool :=
  c.isAlphanum || c = '+' || c = '-' || c = '.'

/-- Model of `urlsplit`'s scheme detection: a leading
`alpha (alnum|+|-|.)* :` prefix is the scheme (lowercased); the remainder
follows the colon.  Otherwise the scheme is empty and the URL is unchanged. -/
def splitScheme (url : String) : String × String :=
  match url.toList.findIdx? (· = ':') with
  | none => ("", url)
  | some i =>
    let pre := url.toList.take i
    match pre with
    | [] => ("", url)
    | c :: _ =>
      if c.isAlpha && pre.all isSchemeChar then
        (String.mk (pre.map Char.toLower), String.mk (url.toList.drop (i + 1)))
      else ("", url)

/-- Characters that end the netloc component. -/
def isNetlocEnd (c : Char) : Bool := c = '/' || c = '?' || c = '#'

/-- Model of `urlsplit`'s netloc: after the scheme, a `//` prefix introduces
the netloc, which extends to the next `/`, `?` or `#`. -/
def getNetloc (rest : String) : String :=
  match rest.toList with
  | '/' :: '/' :: r => String.mk (r.takeWhile (fun c => !isNetlocEnd c))
  | _ => ""

/-- Model of `SplitResult.hostname` (with `or ""` applied as in
`_validate_url`): the part of the netloc after the last `@`, bracket-stripped
for IPv6 literals, otherwise up to the first `:`, lowercased; empty when
absent. -/
def hostnameOfNetloc (netloc : String) : String :=
  let hostinfo := (netloc.toList.reverse.takeWhile (· ≠ '@')).reverse
  let host :=
    if hostinfo.contains '[' then
      ((hostinfo.dropWhile (· ≠ '[')).drop 1).takeWhile (· ≠ ']')
    else
      hostinfo.takeWhile (· ≠ ':')
  String.mk (host.map Char.toLower)

/-- Scheme component of a URL. -/
def urlScheme (url : String) : String := (splitScheme url).1

/-- Netloc component of a URL. -/
def urlNetloc (url : String) : String := getNetloc (splitScheme url).2

/-- Hostname component of a URL (empty string when absent). -/
def urlHostname (url : String) : String := hostnameOfNetloc (urlNetloc url)

/-! ## IP literal classification (model of `ipaddress.ip_address` plus the
`is_private/is_loopback/is_link_local/is_reserved/is_multicast` flags used by
`_is_private_or_local_ip`) -/

/-- Model of one dotted-quad octet: 1-3 ASCII digits, no leading zero
(except `0` itself), value at most 255. -/
def parseOctet (l : List Char) : Option Nat :=
  match l with
  | [] => none
  | c :: cs =>
    if l.all Char.isDigit && l.length ≤ 3 && (cs.isEmpty || c ≠ '0') then
      let n := digitsToNat l
      if n ≤ 255 then some n else none
    else none

/-- Numeric value of a dotted quad. -/
def v4Of (a b c d : Nat) : Nat := ((a * 256 + b) * 256 + c) * 256 + d

/-- Model of `ipaddress.IPv4Address(s)`: exactly four octets. -/
def parseIPv4List (l : List Char) : Option Nat :=
  match splitOnChar l '.' with
  | [a, b, c, d] => do
    let a ← parseOctet a
    let b ← parseOctet b
    let c ← parseOctet c
    let d ← parseOctet d
    pure (v4Of a b c d)
  | _ => none

/-- String form of `parseIPv4List`. -/
def parseIPv4 (s : String) : Option Nat := parseIPv4List s.toList

/-- Membership of a 32-bit value in a CIDR network. -/
def inNet4 (v net pre : Nat) : Bool :=
  v / 2 ^ (32 - pre) = net / 2 ^ (32 - pre)

/-- CPython `IPv4Address.is_private` network list. -/
def v4IsPrivate (v : Nat) : Bool :=
  inNet4 v (v4Of 0 0 0 0) 8 || inNet4 v (v4Of 10 0 0 0) 8 ||
  inNet4 v (v4Of 127 0 0 0) 8 || inNet4 v (v4Of 169 254 0 0) 16 ||
  inNet4 v (v4Of 172 16 0 0) 12 || inNet4 v (v4Of 192 0 0 0) 29 ||
  inNet4 v (v4Of 192 0 0 170) 31 || inNet4 v (v4Of 192 0 2 0) 24 ||
  inNet4 v (v4Of 192 88 99 0) 24 || inNet4 v (v4Of 192 168 0 0) 16 ||
  inNet4 v (v4Of 198 18 0 0) 15 || inNet4 v (v4Of 198 51 100 0) 24 ||
  inNet4 v (v4Of 203 0 113 0) 24 || inNet4 v (v4Of 240 0 0 0) 4 ||
  inNet4 v (v4Of 255 255 255 255) 32

/-- CPython `IPv4Address.is_loopback`: 127.0.0.0/8. -/
def v4IsLoopback (v : Nat) : Bool := inNet4 v (v4Of 127 0 0 0) 8

/-- CPython `IPv4Address.is_link_local`: 169.254.0.0/16. -/
def v4IsLinkLocal (v : Nat) : Bool := inNet4 v (v4Of 169 254 0 0) 16

/-- CPython `IPv4Address.is_reserved`: 240.0.0.0/4. -/
def v4IsReserved (v : Nat) : Bool := inNet4 v (v4Of 240 0 0 0) 4

/-- CPython `IPv4Address.is_multicast`: 224.0.0.0/4. -/
def v4IsMulticast (v : Nat) : Bool := inNet4 v (v4Of 224 0 0 0) 4

/-- Hex digit test. -/
def isHexDig (c : Char) : Bool :=
  c.isDigit || ('a' ≤ c && c ≤ 'f') || ('A' ≤ c && c ≤ 'F')

/-- Hex digit value. -/
def hexVal (c : Char) : Nat :=
  if c.isDigit then c.toNat - '0'.toNat
  else if 'a' ≤ c && c ≤ 'f' then c.toNat - 'a'.toNat + 10
  else c.toNat - 'A'.toNat + 10

/-- Model of one IPv6 hextet: 1-4 hex digits. -/
def parseHextet (l : List Char) : Option Nat :=
  if !l.isEmpty && l.length ≤ 4 && l.all isHexDig then
    some (l.foldl (fun n c => n * 16 + hexVal c) 0)
  else none

/-- Hextet groups that may not contain an embedded IPv4 tail. -/
def parseGroupsPlain (parts : List (List Char)) : Option (List Nat) :=
  match parts with
  | [] => some []
  | g :: rest => do
    let v ← parseHextet g
    let vs ← parseGroupsPlain rest
    pure (v :: vs)

/-- Hextet groups where the final group may be an embedded dotted-quad IPv4
address (counting as two 16-bit groups). -/
def parseGroups (parts : List (List Char)) : Option (List Nat) :=
  match parts with
  | [] => some []
  | [g] =>
    if g.contains '.' then
      match parseIPv4List g with
      | some v => some [v / 65536, v % 65536]
      | none => none
    else (parseHextet g).map ([·])
  | g :: rest => do
    let v ← parseHextet g
    let vs ← parseGroups rest
    pure (v :: vs)

/-- Combine 16-bit groups into a 128-bit value. -/
def v6Combine (gs : List Nat) : Nat :=
  gs.foldl (fun a g => a * 65536 + g) 0

/-- Model of `ipaddress.IPv6Address(s)`: either eight colon-separated groups,
or one `::` eliding at least one zero group; the final group may be an
embedded IPv4 address; zone indices are rejected. -/
def parseIPv6 (s : String) : Option Nat :=
  if s.toList.contains '%' then none
  else
    match splitDoubleColon s.toList with
    | [whole] =>
      let parts := splitOnChar whole ':'
      if parts.any (·.isEmpty) then none
      else
        match parseGroups parts with
        | some gs => if gs.length = 8 then some (v6Combine gs) else none
        | none => none
    | [hi, lo] =>
      let hiParts := if hi.isEmpty then [] else splitOnChar hi ':'
      let loParts := if lo.isEmpty then [] else splitOnChar lo ':'
      if hiParts.any (·.isEmpty) || loParts.any (·.isEmpty) then none
      else
        match parseGroupsPlain hiParts, parseGroups loParts with
        | some hgs, some lgs =>
          if hgs.length + lgs.length ≤ 7 then
            some (v6Combine (hgs ++ List.replicate (8 - hgs.length - lgs.length) 0 ++ lgs))
          else none
        | _, _ => none
    | _ => none

/-- Membership of a 128-bit value in a CIDR network. -/
def inNet6 (v net pre : Nat) : Bool :=
  v / 2 ^ (128 - pre) = net / 2 ^ (128 - pre)

/-- Shorthand for IPv6 constants from eight groups. -/
def v6Of (g1 g2 g3 g4 g5 g6 g7 g8 : Nat) : Nat :=
  v6Combine [g1, g2, g3, g4, g5, g6, g7, g8]

/-- CPython `IPv6Address.is_private` network list. -/
def v6IsPrivate (v : Nat) : Bool :=
  inNet6 v (v6Of 0 0 0 0 0 0 0 1) 128 || inNet6 v 0 128 ||
  inNet6 v (v6Of 0 0 0 0 0 0xffff 0 0) 96 ||
  inNet6 v (v6Of 0x100 0 0 0 0 0 0 0) 64 ||
  inNet6 v (v6Of 0x2001 0 0 0 0 0 0 0) 23 ||
  inNet6 v (v6Of 0x2001 2 0 0 0 0 0 0) 48 ||
  inNet6 v (v6Of 0x2001 0xdb8 0 0 0 0 0 0) 32 ||
  inNet6 v (v6Of 0x2001 0x10 0 0 0 0 0 0) 28 ||
  inNet6 v (v6Of 0xfc00 0 0 0 0 0 0 0) 7 ||
  inNet6 v (v6Of 0xfe80 0 0 0 0 0 0 0) 10

/-- CPython `IPv6Address.is_loopback`: `::1`. -/
def v6IsLoopback (v : Nat) : Bool := v = 1

/-- CPython `IPv6Address.is_link_local`: fe80::/10. -/
def v6IsLinkLocal (v : Nat) : Bool := inNet6 v (v6Of 0xfe80 0 0 0 0 0 0 0) 10

/-- CPython `IPv6Address.is_multicast`: ff00::/8. -/
def v6IsMulticast (v : Nat) : Bool := inNet6 v (v6Of 0xff00 0 0 0 0 0 0 0) 8

/-- CPython `IPv6Address.is_reserved` network list. -/
def v6IsReserved (v : Nat) : Bool :=
  inNet6 v 0 8 || inNet6 v (v6Of 0x100 0 0 0 0 0 0 0) 8 ||
  inNet6 v (v6Of 0x200 0 0 0 0 0 0 0) 7 || inNet6 v (v6Of 0x400 0 0 0 0 0 0 0) 6 ||
  inNet6 v (v6Of 0x800 0 0 0 0 0 0 0) 5 || inNet6 v (v6Of 0x1000 0 0 0 0 0 0 0) 4 ||
  inNet6 v (v6Of 0x4000 0 0 0 0 0 0 0) 3 || inNet6 v (v6Of 0x6000 0 0 0 0 0 0 0) 3 ||
  inNet6 v (v6Of 0x8000 0 0 0 0 0 0 0) 3 || inNet6 v (v6Of 0xa000 0 0 0 0 0 0 0) 3 ||
  inNet6 v (v6Of 0xc000 0 0 0 0 0 0 0) 3 || inNet6 v (v6Of 0xe000 0 0 0 0 0 0 0) 4 ||
  inNet6 v (v6Of 0xf000 0 0 0 0 0 0 0) 5 || inNet6 v (v6Of 0xf800 0 0 0 0 0 0 0) 6 ||
  inNet6 v (v6Of 0xfe00 0 0 0 0 0 0 0) 9

/-- Model of `_is_private_or_local_ip` (web_fetcher.py lines 28-39):
`ipaddress.ip_address(host)` tries IPv4 then IPv6; on `ValueError` the
function returns `False`; otherwise it returns the disjunction of the five
flags. -/
def is_private_or_local_ip (host : String) : Bool :=
  match parseIPv4 host with
  | some v => v4IsPrivate v || v4IsLoopback v || v4IsLinkLocal v || v4IsReserved v || v4IsMulticast v
  | none =>
    match parseIPv6 host with
    | some v => v6IsPrivate v || v6IsLoopback v || v6IsLinkLocal v || v6IsReserved v || v6IsMulticast v
    | none => false

/-! ## Errors -/

/-- Error taxonomy of the orchestrator and fetcher.  `notFound` is
`RunNotFoundError`, `invalidState` is `InvalidPipelineStateError`,
`unsafeUrl` is `UnsafeUrlError`, `transport` covers `httpx` errors raised by
external collaborators. -/
inductive Err where
  | notFound (msg : String)
  | invalidState (msg : String)
  | transport (msg : String)
  | unsafeUrl (msg : String)
deriving DecidableEq, Repr

/-- Python `str(exc)` of a modelled exception. -/
def Err.message : Err → String
  | .notFound m => m
  | .invalidState m => m
  | .transport m => m
  | .unsafeUrl m => m

/-! ## `_validate_url` and `fetch_html` (web_fetcher.py lines 42-102) -/

instance {ε α : Type} [DecidableEq ε] [DecidableEq α] : DecidableEq (Except ε α) :=
  fun a b =>
  match a, b with
  | .error e1, .error e2 =>
    if h : e1 = e2 then isTrue (by rw [h])
    else isFalse (by intro hx; injection hx; exact h (by assumption))
  | .ok v1, .ok v2 =>
    if h : v1 = v2 then isTrue (by rw [h])
    else isFalse (by intro hx; injection hx; exact h (by assumption))
  | .error _, .ok _ => isFalse (fun hx => Except.noConfusion hx)
  | .ok _, .error _ => isFalse (fun hx => Except.noConfusion hx)

/-- Model of `_validate_url`. -/
def validate_url (url : String) : Except Err Unit :=
  if ¬(urlScheme url = "http" ∨ urlScheme url = "https") then
    .error (.unsafeUrl "Only http/https URLs are allowed.")
  else if urlNetloc url = "" then
    .error (.unsafeUrl "URL must include a hostname.")
  else if urlHostname url = "localhost" then
    .error (.unsafeUrl "Localhost URLs are not allowed.")
  else if is_private_or_local_ip (urlHostname url) then
    .error (.unsafeUrl "Private/local IP URLs are not allowed.")
  else .ok ()

/-- Model of `fetch_html`: validate the URL, then perform the network
download (an oracle producing the decoded HTML, whose failures are `httpx`
transport errors). -/
def fetch_html (net : String → Except String String) (url : String) :
    Except Err String :=
  match validate_url url with
  | .error e => .error e
  | .ok _ =>
    match net url with
    | .error m => .error (.transport m)
    | .ok html => .ok html

/-- Model of `basic_summary` (web_fetcher.py lines 118-123). -/
def basic_summary (text : String) (maxChars : Nat := 800) : String :=
  if text = "" then "" else pyStrip (pySlice text maxChars)

/-! ## Data model (app/db/models) -/

/-- Model of `ResearchRunStatus`. -/
inductive RunStatus where
  | pending | running | completed | failed
deriving DecidableEq, Repr

/-- Model of `ResearchStepType`. -/
inductive StepType where
  | planner | searcher | reader | synthesizer
deriving DecidableEq, Repr

/-- Model of `ResearchStepStatus`. -/
inductive StepStatus where
  | pending | running | completed | failed
deriving DecidableEq, Repr

/-- Model of `PipelineEventType`. -/
inductive EventType where
  | started | completed | failed
deriving DecidableEq, Repr

/-- Model of `ExecutionMode` (both the DB enum and the request schema). -/
inductive Mode where
  | dummy | real
deriving DecidableEq, Repr

/-- Entries of the `_warnings` list the synthesizer appends to its output. -/
inductive Warning where
  | missingCitations (fields : List String)
  | lowSourceCoverage (coverageRatio : Rat)
deriving DecidableEq, Repr

/-- JSON-ish values stored in the `_meta` dictionary. -/
inductive MetaVal where
  | str (s : String)
  | nat (n : Nat)
  | rat (q : Rat)
  | null
deriving DecidableEq, Repr

/-- Model of Python `min(a, b)` on floats (first argument wins ties). -/
def pyMin (a b : Rat) : Rat := if a ≤ b then a else b

/-- Association-list lookup for `_meta`-style dictionaries. -/
def lookupMeta (d : List (String × MetaVal)) (k : String) : Option MetaVal :=
  match d with
  | [] => none
  | (k', v) :: rest => if k' = k then some v else lookupMeta rest k

/-- Association-list store, `d[k] = v` (update in place or append). -/
def setMeta (d : List (String × MetaVal)) (k : String) (v : MetaVal) :
    List (String × MetaVal) :=
  match d with
  | [] => [(k, v)]
  | (k', v') :: rest =>
    if k' = k then (k', v) :: rest else (k', v') :: setMeta rest k v

/-- The synthesizer's working `output_payload` dictionary: the five schema
fields of `SynthesisOutput`, plus the `_warnings` and `_meta` keys the
enforcement code may add. -/
structure OutputPayload where
  summary : String
  key_points : List String
  risks : List String
  recommendation : String
  confidence : Rat
  warnings : List Warning := []
  payloadMeta : List (String × MetaVal) := []
deriving DecidableEq, Repr

/-- Step output payloads, one constructor per stage variant (mirroring the
`output=` dictionaries built in pipeline_orchestrator.py; the `input=`
dictionaries are not modelled as no claim mentions them). -/
inductive StepOutput where
  | plannerOut (subQuestions : List String)
  | dummySearchOut (notes hint : String)
  | searchOut (resultCount : Nat) (provider : String)
  | dummyReaderOut (sourceCount : Nat)
  | readerOut (attempted readCount failedCount : Nat)
      (failed : List (String × String)) (notes : Option String)
  | dummySynthOut (answer notes : String) (sourceCount : Nat)
  | synthOut (persisted : OutputPayload)
deriving DecidableEq, Repr

/-- Model of a `ResearchStep` row.  `status` defaults to `pending`
(the SQLAlchemy column default in research_step.py lines 48-52). -/
structure Step where
  stepIndex : Nat
  stepType : StepType
  status : StepStatus := .pending
  startedAt : Option Nat := none
  completedAt : Option Nat := none
  output : StepOutput
deriving DecidableEq, Repr

/-- Model of a `Source` row (`extra_metadata` and `created_at` are not modelled; no
claim mentions them). -/
structure Src where
  url : String
  title : String := ""
  rawContent : Option String := none
  summary : Option String := none
  relevanceScore : Option Rat := none
deriving DecidableEq, Repr

/-- Model of a `PipelineEvent` row. -/
structure Event where
  eventType : EventType
  mode : Mode
  stage : Option String := none
  durationMs : Option Int := none
  errorMessage : Option String := none
deriving DecidableEq, Repr

/-- Model of the `ResearchRun` row core attributes. -/
structure RunData where
  query : String
  status : RunStatus := .pending
  errorMessage : Option String := none
  modelProvider : String := "ollama:llama3"
deriving DecidableEq, Repr

/-- The rows of one research run plus a monotone clock.  Stage functions
produce a new `DB` only on commit. -/
structure DB where
  run : Option RunData
  steps : List Step := []
  sources : List Src := []
  events : List Event := []
  clock : Nat := 0
deriving DecidableEq, Repr

/-- One `datetime.now` read; the clock is monotone. -/
def tick (db : DB) : Nat × DB :=
  (db.clock, { db with clock := db.clock + 1 })

/-! ## External collaborators (oracles) -/

/-- Outcome of `json.loads` followed by `SynthesisOutput.model_validate`:
either a validated payload (its `_warnings`/`_meta` are empty: `model_dump`
produces only the five schema fields), a schema-validation failure after
successful JSON parsing, or a JSON parse failure.  The degraded payloads the
code substitutes in the two failure branches are embedded below. -/
inductive ParseOutcome where
  | ok (p : OutputPayload)
  | schemaFail (err : String)
  | jsonFail (err : String)

/-- External collaborators of the orchestrator: `DuckDuckGoClient.search`
(title, url pairs), the fetcher's network download + `extract_text_from_html`
composite, `get_llm_client` (`llmError = some e` models the factory raising),
`LLMClient.generate`, and the JSON parse/validate composite.  `String`
errors are transport-level exceptions. -/
structure Collab where
  search : String → Nat → Except String (List (String × String))
  fetchText : String → Except String String
  llmError : Option String := none
  llmGenerate : String → Except String String
  parseValidate : String → ParseOutcome

/-! ## Orchestrator helpers (pipeline_orchestrator.py lines 70-90) -/

/-- Model of `_has_step_type`. -/
def hasStepType (db : DB) (t : StepType) : Bool :=
  db.steps.any (fun s => s.stepType = t)

/-- Model of `_next_step_index`: `max(existing) + 1`, or 0 if none. -/
def nextStepIndex (db : DB) : Nat :=
  match db.steps.map Step.stepIndex with
  | [] => 0
  | i :: is => (is.foldl Nat.max i) + 1

/-- Model of `_set_status_running_if_pending`. -/
def setRunningIfPending (r : RunData) : RunData :=
  if r.status = .pending then { r with status := .running } else r

/-- Python truthiness of `title or url` on the non-nullable `title` column. -/
def titleOrUrl (s : Src) : String :=
  if s.title = "" then s.url else s.title

/-! ## Dummy stages (pipeline_orchestrator.py lines 92-327) -/

/-- Model of `run_dummy_search` (lines 92-172). -/
def run_dummy_search (db : DB) : Except Err DB :=
  match db.run with
  | none => .error (.notFound "Research run not found")
  | some run =>
    if hasStepType db .searcher then
      .error (.invalidState "Search has already been run for this research run.")
    else if !hasStepType db .planner then
      .error (.invalidState "Planner step missing; cannot run search.")
    else
      let query := run.query
      let nextIndex := nextStepIndex db
      let (now, db) := tick db
      let searchStep : Step :=
        { stepIndex := nextIndex, stepType := .searcher, status := .completed,
          startedAt := some now, completedAt := some now,
          output := .dummySearchOut
            "Dummy searcher v0 – no real web search performed."
            "Later this will hit a search API and populate real sources." }
      let baseSlug :=
        let lowered := query.toList.map Char.toLower
        let dashed := lowered.map (fun ch => if ch = ' ' then '-' else ch)
        let s := String.mk (dashed.take 50)
        if s = "" then "research-topic" else s
      let newSources : List Src :=
        [ { url := "https://example.com/articles/" ++ baseSlug ++ "-overview",
            title := "High-level overview related to your research question",
            rawContent := none,
            summary := some "Overview article (dummy source for dev/testing).",
            relevanceScore := some (mkRat 9 10) },
          { url := "https://example.com/blog/" ++ baseSlug ++ "-tradeoffs",
            title := "Discussion of tradeoffs and practical considerations",
            rawContent := none,
            summary := some "Tradeoffs and pros/cons (dummy source for dev/testing).",
            relevanceScore := some (mkRat 8 10) },
          { url := "https://example.com/docs/" ++ baseSlug ++ "-reference",
            title := "Reference documentation or spec-style material",
            rawContent := none,
            summary := some "Reference-style material (dummy source for dev/testing).",
            relevanceScore := some (mkRat 3 4) } ]
      .ok { db with run := some (setRunningIfPending run),
                    steps := db.steps ++ [searchStep],
                    sources := db.sources ++ newSources }

/-- Model of `run_dummy_reader` (lines 278-327). -/
def run_dummy_reader (db : DB) : Except Err DB :=
  match db.run with
  | none => .error (.notFound "Research run not found")
  | some _run =>
    if hasStepType db .reader then
      .error (.invalidState "Reader has already been run for this research run.")
    else if !hasStepType db .searcher then
      .error (.invalidState "Run search before reader.")
    else if db.sources.isEmpty then
      .error (.invalidState "No sources available to read.")
    else
      let (now, db) := tick db
      let newSources := db.sources.map fun src =>
        { src with
            rawContent := some ("This is dummy fetched content for source: " ++
              titleOrUrl src ++ ". It simulates the full text content retrieved from the web."),
            summary := some ("Summary for " ++ titleOrUrl src ++
              ". This represents a condensed version of the source content.") }
      let nextIndex := nextStepIndex db
      let readerStep : Step :=
        { stepIndex := nextIndex, stepType := .reader, status := .completed,
          startedAt := some now, completedAt := some now,
          output := .dummyReaderOut db.sources.length }
      .ok { db with sources := newSources, steps := db.steps ++ [readerStep] }

/-- Model of the dummy answer text built by `run_dummy_synthesis`
(lines 197-221). -/
def dummyAnswerText (query : String) (sources : List Src) : String :=
  if sources.isEmpty then
    "No sources are currently attached to this research run. " ++
    "Run the searcher agent first to collect relevant sources."
  else
    let srcLines := sources.enum.flatMap fun (i, src) =>
      let title := titleOrUrl src
      let line := toString (i + 1) ++ ". " ++ title ++ " — " ++ src.url
      let summ := pyStrip (src.summary.getD "")
      if summ ≠ "" then [line, "   Summary: " ++ summ] else [line]
    String.intercalate "\n"
      ([ "This is a dummy synthesized answer based on the attached sources.",
         "",
         "Research question: " ++ query,
         "",
         "The system considered the following sources:" ] ++ srcLines ++
       [ "",
         "A proper LLM-backed synthesizer will later read and compare these " ++
         "sources in detail to produce a nuanced, citation-rich answer." ])

/-- Model of `run_dummy_synthesis` (lines 174-247). -/
def run_dummy_synthesis (db : DB) : Except Err DB :=
  match db.run with
  | none => .error (.notFound "Research run not found")
  | some run =>
    if hasStepType db .synthesizer then
      .error (.invalidState "Synthesis has already been run for this research run.")
    else if !hasStepType db .reader then
      .error (.invalidState "Run reader before synthesis.")
    else
      let sources := db.sources
      let answerText := dummyAnswerText run.query sources
      let nextIndex := nextStepIndex db
      let (now, db) := tick db
      let synthStep : Step :=
        { stepIndex := nextIndex, stepType := .synthesizer, status := .completed,
          startedAt := some now, completedAt := some now,
          output := .dummySynthOut answerText
            "Dummy synthesizer v0 – no real LLM call performed." sources.length }
      .ok { db with run := some { run with status := .completed },
                    steps := db.steps ++ [synthStep] }

/-! ## Real search stage (pipeline_orchestrator.py lines 329-378) -/

/-- Model of `run_web_search`. -/
def run_web_search (db : DB) (limit : Nat) (c : Collab) : Except Err DB :=
  match db.run with
  | none => .error (.notFound "Research run not found")
  | some run =>
    if hasStepType db .searcher then
      .error (.invalidState "Search has already been run for this research run.")
    else if !hasStepType db .planner then
      .error (.invalidState "Planner step missing; cannot run search.")
    else
      match c.search run.query limit with
      | .error m => .error (.transport m)
      | .ok results =>
        let (now, db) := tick db
        let nextIndex := nextStepIndex db
        let step : Step :=
          { stepIndex := nextIndex, stepType := .searcher, status := .completed,
            startedAt := some now, completedAt := some now,
            output := .searchOut results.length "duckduckgo_html" }
        let newSources : List Src := results.map fun (t, u) =>
          { url := u, title := t, rawContent := none, summary := none,
            relevanceScore := none }
        .ok { db with run := some (setRunningIfPending run),
                      steps := db.steps ++ [step],
                      sources := db.sources ++ newSources }

/-! ## Real reader stage (pipeline_orchestrator.py lines 380-484) -/

/-- Python truthiness of `not s.raw_content`: unread means `None` or `""`. -/
def isUnread (s : Src) : Bool := s.rawContent.getD "" = ""

/-- Content bounds the reader guarantees on a source it updates. -/
def boundedSrc (s : Src) : Prop :=
  pyLen (s.rawContent.getD "") ≤ 20000 ∧ pyLen (s.summary.getD "") ≤ 900

/-- Model of the `read_one` body for a single source: `fetch_html` validates
the URL and downloads, `extract_text_from_html` extracts (the oracle
`c.fetchText` is the download + extraction composite), empty text is a
per-URL `ValueError`.  Returns the (possibly updated) source, the
`read_count` increment and the `failed` entries. -/
def read_one (c : Collab) (src : Src) : Src × Nat × List (String × String) :=
  match validate_url src.url with
  | .error e => (src, 0, [(src.url, e.message)])
  | .ok _ =>
    match c.fetchText src.url with
    | .error m => (src, 0, [(src.url, m)])
    | .ok text =>
      let cleaned := pyStrip text
      if cleaned = "" then (src, 0, [(src.url, "Empty extracted text")])
      else
        ({ src with rawContent := some (pySlice cleaned 20000),
                    summary := some (basic_summary cleaned 900) },
         1, [])

/-- Walk the source list applying `read_one` to the first `remaining` unread
sources (the in-place mutation of the `to_read = [s for s in sources if not
s.raw_content][:limit]` selection), collecting `read_count` and `failed`. -/
def processSources (c : Collab) : List Src → Nat → List Src × Nat × List (String × String)
  | [], _ => ([], 0, [])
  | src :: rest, remaining =>
    if remaining ≠ 0 && isUnread src then
      let (src', r, f) := read_one c src
      let (rest', rc, fl) := processSources c rest (remaining - 1)
      (src' :: rest', r + rc, f ++ fl)
    else
      let (rest', rc, fl) := processSources c rest remaining
      (src :: rest', rc, fl)

/-- Model of `run_web_reader`. -/
def run_web_reader (db : DB) (limit : Nat) (c : Collab) : Except Err DB :=
  match db.run with
  | none => .error (.notFound "Research run not found")
  | some _run =>
    if !hasStepType db .searcher then
      .error (.invalidState "Run search before reader.")
    else if hasStepType db .reader then
      .error (.invalidState "Reader has already been run for this research run.")
    else
      let toRead := (db.sources.filter isUnread).take limit
      let (now, db) := tick db
      let nextIndex := nextStepIndex db
      if toRead.isEmpty then
        let (now2, db) := tick db
        let step : Step :=
          { stepIndex := nextIndex, stepType := .reader, status := .completed,
            startedAt := some now, completedAt := some now2,
            output := .readerOut 0 0 0 [] (some "No unread sources found.") }
        .ok { db with steps := db.steps ++ [step] }
      else
        let (newSources, readCount, failed) := processSources c db.sources limit
        let (now2, db) := tick db
        let step : Step :=
          { stepIndex := nextIndex, stepType := .reader, status := .completed,
            startedAt := some now, completedAt := some now2,
            output := .readerOut toRead.length readCount failed.length
              (failed.take 10) none }
        .ok { db with sources := newSources, steps := db.steps ++ [step] }

/-! ## Real synthesis stage (pipeline_orchestrator.py lines 591-798) -/

/-- Model of the local `_compact` helper (lines 612-616). -/
def compact (text : String) (maxChars : Nat) : String :=
  let t := pyStrip text
  if pyLen t ≤ maxChars then t
  else pyRstrip (pySlice t (maxChars - 20)) ++ " ...[truncated]"

/-- Model of one evidence block (lines 619-640). -/
def evidenceBlock (idx : Nat) (src : Src) : String :=
  let title := pyStrip (titleOrUrl src)
  let summary := pyStrip (src.summary.getD "")
  let raw := pyStrip (src.rawContent.getD "")
  let evidenceText :=
    if raw ≠ "" then raw
    else if summary ≠ "" then summary
    else "(No content available for this source.)"
  let evidenceCompact := compact evidenceText 1800
  String.intercalate "\n"
    [ "[" ++ toString idx ++ "] " ++ title,
      "URL: " ++ src.url,
      "EVIDENCE (use for citations): " ++ evidenceCompact ]

/-- Model of the evidence context with its 14,000-character hard cap
(lines 642-645). -/
def buildContext (sources : List Src) : String :=
  compact
    (String.intercalate "\n\n" (sources.enum.map fun (i, s) => evidenceBlock (i + 1) s))
    14000

/-- Model of the synthesis prompt f-string (lines 647-674); the indented
triple-quoted literal keeps its leading spaces.  Only consumed by the LLM
oracle. -/
def buildPrompt (query context : String) : String :=
  "You are an expert research assistant.\n\n" ++
  "        Your job:\n" ++
  "        - Answer the research question using ONLY the evidence excerpts below.\n" ++
  "        - Every key point and every risk MUST include citations like [1], [2], etc.\n" ++
  "        - Prefer citing the most relevant sources; don't cite if you truly have no evidence.\n\n" ++
  "        Return a JSON object that matches EXACTLY this schema:\n\n" ++
  "        \x7b\n" ++
  "        \"summary\": string,\n" ++
  "        \"key_points\": [string, ...],\n" ++
  "        \"risks\": [string, ...],\n" ++
  "        \"recommendation\": string,\n" ++
  "        \"confidence\": number\n" ++
  "        \x7d\n\n" ++
  "        Rules:\n" ++
  "        - Output MUST be valid JSON only. No markdown. No extra text.\n" ++
  "        - Put citations directly inside the strings, e.g. \"X is true because ... [1][3]\"\n" ++
  "        - Confidence must be 0.0 to 1.0\n\n" ++
  "        Research question:\n" ++
  "        " ++ query ++ "\n\n" ++
  "        Evidence sources:\n" ++
  "        " ++ context ++ "\n        "

/-- Degraded payload substituted when `json.loads` raises (lines 693-699). -/
def degradedParsePayload : OutputPayload :=
  { summary := "Failed to parse model output as JSON.",
    key_points := [],
    risks := ["Model returned invalid JSON."],
    recommendation := "Try running synthesis again or adjust prompt constraints.",
    confidence := mkRat 1 5 }

/-- Degraded payload substituted when schema validation fails
(lines 707-713). -/
def degradedSchemaPayload : OutputPayload :=
  { summary := "Model output did not match required schema.",
    key_points := [],
    risks := ["Schema validation failed."],
    recommendation := "Try running synthesis again or refine the prompt/schema.",
    confidence := mkRat 1 5 }

/-- Fields of `key_points`/`risks` lacking a `[digits]` citation, in the
order the code collects them (lines 725-733).  The `isinstance(_, str)`
guards are vacuous here: every element is a string after validation or
degradation. -/
def missingCitationFields (keyPoints risks : List String) : List String :=
  (keyPoints.enum.filterMap fun (i, p) =>
    if hasCitation p then none else some ("key_points[" ++ toString i ++ "]")) ++
  (risks.enum.filterMap fun (i, r) =>
    if hasCitation r then none else some ("risks[" ++ toString i ++ "]"))

/-- Distinct cited source numbers `n` with `1 ≤ n ≤ source_count`, collected
from all texts (lines 743-760; Python builds a `set`, modelled by `dedup`). -/
def citedList (texts : List String) (sourceCount : Nat) : List Nat :=
  ((texts.flatMap extractCitations).filter
    (fun n => decide (1 ≤ n) && decide (n ≤ sourceCount))).dedup

/-- Model of the missing-citation enforcement block of `run_llm_synthesis`
(lines 725-739): collect uncited fields, cap confidence at 0.3 and append a
warning when any exist. -/
def applyMissingCitations (p : OutputPayload) : OutputPayload :=
  let missing := missingCitationFields p.key_points p.risks
  if missing.isEmpty then p
  else
    { p with confidence := pyMin p.confidence (mkRat 3 10),
             warnings := p.warnings ++ [Warning.missingCitations missing] }

/-- Model of the coverage-scoring block of `run_llm_synthesis`
(lines 741-773), applied to the payload after the missing-citation step:
store the metrics in the payload's `_meta`, and when `source_count >= 3` and
the ratio is below 0.4, cap confidence at 0.4 and append a warning. -/
def applyCoverage (p : OutputPayload) (sourceCount : Nat) : OutputPayload :=
  let cited := citedList (p.key_points ++ p.risks) sourceCount
  let coverageRatio : Rat :=
    if sourceCount > 0 then mkRat cited.length sourceCount else 0
  let meta1 := setMeta p.payloadMeta "unique_sources_cited" (MetaVal.nat cited.length)
  let meta2 := setMeta meta1 "coverage_ratio" (MetaVal.rat coverageRatio)
  let p := { p with payloadMeta := meta2 }
  if sourceCount ≥ 3 && coverageRatio < mkRat 2 5 then
    { p with confidence := pyMin p.confidence (mkRat 2 5),
             warnings := p.warnings ++ [Warning.lowSourceCoverage coverageRatio] }
  else p

/-- The citation-enforcement and coverage-scoring block of
`run_llm_synthesis` (lines 716-773), transforming `output_payload`. -/
def enforceCitations (p : OutputPayload) (sourceCount : Nat) : OutputPayload :=
  applyCoverage (applyMissingCitations p) sourceCount

/-- The `_meta` dictionary literal of the persisted step output
(lines 785-789).  Because the step's `output` is built as
`{**output_payload, "_meta": {...}}`, this literal REPLACES the `_meta`
entries (`unique_sources_cited`, `coverage_ratio`) that the coverage code
stored inside `output_payload` — the later key wins in a Python dict
display. -/
def persistedMetaDict (rawCompletion : String) (parseError : Option String)
    (sourceCount : Nat) : List (String × MetaVal) :=
  [ ("raw_completion", .str rawCompletion),
    ("parse_error", match parseError with | some e => .str e | none => .null),
    ("source_count", .nat sourceCount) ]

/-- Model of `run_llm_synthesis` (lines 591-798).  Note that the
`ResearchStep` is constructed WITHOUT `status`, `started_at` or
`completed_at` arguments, so the row keeps the column defaults
(`status = pending`, timestamps `None`). -/
def run_llm_synthesis (db : DB) (c : Collab) : Except Err DB :=
  match db.run with
  | none => .error (.notFound "Research run not found")
  | some run =>
    if hasStepType db .synthesizer then
      .error (.invalidState "Synthesis has already been run for this research run.")
    else if !hasStepType db .reader then
      .error (.invalidState "Run reader before synthesis.")
    else if db.sources.isEmpty then
      .error (.invalidState "No sources available for synthesis.")
    else
      let sources := db.sources
      let context := buildContext sources
      let prompt := buildPrompt run.query context
      match c.llmError with
      | some e => .error (.invalidState ("LLM client unavailable: " ++ e))
      | none =>
        let (_now, db) := tick db
        let nextIndex := nextStepIndex db
        match c.llmGenerate prompt with
        | .error m => .error (.transport m)
        | .ok rawCompletion =>
          let (payload0, parseError) :=
            match c.parseValidate rawCompletion with
            | .ok p => (p, (none : Option String))
            | .jsonFail e =>
              -- the degraded dict passes schema validation, so no schema error
              (degradedParsePayload, some e)
            | .schemaFail e =>
              -- json parsed but validation failed:
              -- parse_error = "schema_error=<exc>" (parse_error was None)
              (degradedSchemaPayload, some ("schema_error=" ++ e))
          let payload := enforceCitations payload0 sources.length
          let persisted :=
            { payload with payloadMeta :=
                persistedMetaDict rawCompletion parseError sources.length }
          let synthStep : Step :=
            { stepIndex := nextIndex, stepType := .synthesizer,
              status := .pending, startedAt := none, completedAt := none,
              output := .synthOut persisted }
          .ok { db with run := some { run with status := .completed },
                        steps := db.steps ++ [synthStep] }

/-! ## Pipelines and `execute` (pipeline_orchestrator.py lines 249-276 and
522-589) -/

/-- Stage results inside a pipeline carry the last committed state on
failure (the failing stage itself commits nothing; `execute` rolls back the
uncommitted unit). -/
def liftStage (f : DB → Except Err DB) (db : DB) : Except (Err × DB) DB :=
  match f db with
  | .ok db' => .ok db'
  | .error e => .error (e, db)

/-- Run a stage only when its step type is absent (the
`if not await self._has_step_type(...)` guards). -/
def stepIfMissing (t : StepType) (f : DB → Except Err DB) (db : DB) :
    Except (Err × DB) DB :=
  if hasStepType db t then .ok db else liftStage f db

/-- Model of `execute_dummy_pipeline` (lines 249-261): the initial and final
`get_run_detail` reads raise `NotFound` on a missing run; each stage runs
only when its step type is absent. -/
def execute_dummy_pipeline (db : DB) : Except (Err × DB) DB :=
  if db.run.isNone then .error (Err.notFound "Research run not found", db)
  else
    match stepIfMissing .searcher run_dummy_search db with
    | .error e => .error e
    | .ok db =>
      match stepIfMissing .reader run_dummy_reader db with
      | .error e => .error e
      | .ok db =>
        match stepIfMissing .synthesizer run_dummy_synthesis db with
        | .error e => .error e
        | .ok db =>
          if db.run.isNone then .error (Err.notFound "Research run not found", db)
          else .ok db

/-- Model of `execute_pipeline` (lines 263-276), with the `limit=5` the code
passes to the search and reader stages. -/
def execute_pipeline (db : DB) (c : Collab) : Except (Err × DB) DB :=
  if db.run.isNone then .error (Err.notFound "Research run not found", db)
  else
    match stepIfMissing .searcher (fun d => run_web_search d 5 c) db with
    | .error e => .error e
    | .ok db =>
      match stepIfMissing .reader (fun d => run_web_reader d 5 c) db with
      | .error e => .error e
      | .ok db =>
        match stepIfMissing .synthesizer (fun d => run_llm_synthesis d c) db with
        | .error e => .error e
        | .ok db =>
          if db.run.isNone then .error (Err.notFound "Research run not found", db)
          else .ok db

/-- Stage tag recorded on terminal events. -/
def stageName : Mode → String
  | .dummy => "execute_dummy_pipeline"
  | .real => "execute_pipeline"

/-- The `started` event of an `execute` invocation (lines 531-537). -/
def startedEvent (m : Mode) : Event :=
  { eventType := .started, mode := m, stage := none, durationMs := none,
    errorMessage := none }

/-- The `completed` event of an `execute` invocation (lines 553-560). -/
def completedEvent (m : Mode) (d : Int) : Event :=
  { eventType := .completed, mode := m, stage := some (stageName m),
    durationMs := some d, errorMessage := none }

/-- The `failed` event of an `execute` invocation (lines 576-583). -/
def failedEvent (m : Mode) (d : Int) (msg : String) : Event :=
  { eventType := .failed, mode := m, stage := some (stageName m),
    durationMs := some d, errorMessage := some msg }

/-- State after `execute` reads the clock and commits the `started` event
(lines 527-539). -/
def afterStarted (db : DB) (m : Mode) : DB :=
  let (_startedAt, db) := tick db
  { db with events := db.events ++ [startedEvent m] }

/-- Model of `execute` (lines 522-589).  On success the new state is
returned; on failure the state after the rollback, the failure bookkeeping
and the `failed`-event commit accompanies the re-raised error. -/
def execute (db0 : DB) (mode : Mode) (c : Collab) : Except (Err × DB) DB :=
  match db0.run with
  | none => .error (.notFound "Research run not found", db0)
  | some _ =>
    let startedAt := db0.clock
    let db := afterStarted db0 mode
    let result :=
      match mode with
      | .dummy => execute_dummy_pipeline db
      | .real => execute_pipeline db c
    match result with
    | .ok db1 =>
      let (now, db1) := tick db1
      let durationMs : Int := ((now - startedAt : Nat) : Int)
      .ok { db1 with events := db1.events ++ [completedEvent mode durationMs] }
    | .error (e, db1) =>
      -- rollback discards the failing stage's uncommitted unit: db1 is the
      -- last committed state
      let (now, db1) := tick db1
      let durationMs : Int := ((now - startedAt : Nat) : Int)
      let db1 :=
        match db1.run with
        | some r =>
          { db1 with run := some { r with status := .failed,
                                          errorMessage := some e.message } }
        | none => db1
      .error (e, { db1 with events := db1.events ++ [failedEvent mode durationMs e.message] })

/-! ## Run listing endpoint (research_runs.py lines 70-90) -/

/-- A row as seen by the listing endpoint. -/
structure RunRow where
  ident : Nat
  created_at : Nat
deriving DecidableEq, Repr

/-- Newest-first comparison used by `order_by(desc(ResearchRun.created_at))`. -/
def newestFirst (a b : RunRow) : Prop := b.created_at ≤ a.created_at

instance : DecidableRel newestFirst := fun a b =>
  inferInstanceAs (Decidable (b.created_at ≤ a.created_at))

/-- Model of `list_research_runs`: `SELECT ... ORDER BY created_at DESC
LIMIT limit OFFSET offset`.  The FastAPI defaults are `limit=20`,
`offset=0`. -/
def list_research_runs (rows : List RunRow) (limit : Nat := 20)
    (offset : Nat := 0) : List RunRow :=
  (((rows.insertionSort newestFirst).drop offset).take limit)

/-- Whether the endpoint's query-parameter validation accepts an integer
`limit`.  The signature is `limit: int = 20` with no `Query(ge=..., le=...)`
constraint, so every integer is accepted. -/
def acceptsLimit (_l : Int) : Bool := true

/-- The call raised `InvalidPipelineStateError` (with some message). -/
def raisesInvalidState (r : Except Err DB) : Prop :=
  ∃ m, r = .error (.invalidState m)

/-- Whether an orchestrator call succeeded (no exception raised). -/
def isOkE (r : Except Err DB) : Bool :=
  match r with
  | .ok _ => true
  | .error _ => false

/-- The committed state of a successful call, or a fallback. -/
def okOr (r : Except Err DB) (fallback : DB) : DB :=
  match r with
  | .ok d => d
  | .error _ => fallback

/-- The persisted `_meta` dictionary of a synthesizer step output. -/
def stepMeta (s : Step) : List (String × MetaVal) :=
  match s.output with
  | .synthOut p => p.payloadMeta
  | _ => []

/-- The persisted `_meta` dictionary of the last step of a run. -/
def lastStepMeta (db : DB) : List (String × MetaVal) :=
  match db.steps.getLast? with
  | some s => stepMeta s
  | none => []

/-! ## Concrete fixtures for witnesses and counterexamples -/

/-- The seeded planner step every run is created with. -/
def plannerStep0 : Step :=
  { stepIndex := 0, stepType := .planner, status := .completed,
    startedAt := some 0, completedAt := some 0,
    output := .plannerOut ["What is q?"] }

/-- A collaborator bundle with deterministic outcomes: one search result,
readable pages, and an LLM that returns invalid JSON. -/
def collab0 : Collab :=
  { search := fun _ _ => .ok [("T", "http://example.com/a")],
    fetchText := fun _ => .ok "hello world",
    llmGenerate := fun _ => .ok "not json",
    parseValidate := fun _ => .jsonFail "Expecting value: line 1 column 1 (char 0)" }

/-- A freshly created run: planner seeded, nothing else. -/
def dbSeeded : DB := { run := some { query := "q" }, steps := [plannerStep0] }

/-- A run ready for synthesis: planner, searcher and reader done, one read
source. -/
def dbSynthReady : DB :=
  { run := some { query := "q", status := .running },
    steps := [plannerStep0,
      { stepIndex := 1, stepType := .searcher, status := .completed,
        output := .searchOut 1 "duckduckgo_html" },
      { stepIndex := 2, stepType := .reader, status := .completed,
        output := .readerOut 1 1 0 [] none }],
    sources := [{ url := "http://example.com/a", title := "T",
                  rawContent := some "raw", summary := some "sum" }] }

/-- A run with planner and searcher done but zero sources. -/
def dbNoSources : DB :=
  { run := some { query := "q", status := .running },
    steps := [plannerStep0,
      { stepIndex := 1, stepType := .searcher, status := .completed,
        output := .searchOut 0 "duckduckgo_html" }],
    sources := [] }

/-- A run ready for the reader: planner and searcher done, one unread
source. -/
def dbReadReady : DB :=
  { run := some { query := "q", status := .running },
    steps := [plannerStep0,
      { stepIndex := 1, stepType := .searcher, status := .completed,
        output := .searchOut 1 "duckduckgo_html" }],
    sources := [{ url := "http://example.com/a", title := "T" }] }

/-- A payload with one uncited key point (used to instantiate the citation
enforcement theorem). -/
def c8Payload : OutputPayload :=
  { summary := "s", key_points := ["uncited point"], risks := [],
    recommendation := "r", confidence := mkRat 1 2 }

/-- The state after a first successful dummy `execute` on `dbSeeded`
(used to instantiate the idempotence theorem). -/
def dbAfterFirstExecute : DB :=
  match execute dbSeeded .dummy collab0 with
  | .ok d => d
  | .error _ => dbSeeded

/-! ## Shape lemmas for the six stage entry points

Each lemma records what a successful stage commit does to the state: events
untouched, run still present, exactly one step of the stage's type
appended. -/

theorem run_dummy_search_shape {db db' : DB} (h : run_dummy_search db = .ok db') :
    db'.events = db.events ∧ db'.run.isSome = true ∧
    ∃ s, db'.steps = db.steps ++ [s] ∧ s.stepType = StepType.searcher := by
  unfold run_dummy_search at h
  simp only [tick] at h
  repeat' split at h
  all_goals first
    | exact Except.noConfusion h
    | (injection h with h; subst h;
       refine ⟨rfl, ?_, _, rfl, rfl⟩; simp_all)

theorem run_dummy_reader_shape {db db' : DB} (h : run_dummy_reader db = .ok db') :
    db'.events = db.events ∧ db'.run.isSome = true ∧
    ∃ s, db'.steps = db.steps ++ [s] ∧ s.stepType = StepType.reader := by
  unfold run_dummy_reader at h
  simp only [tick] at h
  repeat' split at h
  all_goals first
    | exact Except.noConfusion h
    | (injection h with h; subst h;
       refine ⟨rfl, ?_, _, rfl, rfl⟩; simp_all)

theorem run_dummy_synthesis_shape {db db' : DB} (h : run_dummy_synthesis db = .ok db') :
    db'.events = db.events ∧ db'.run.isSome = true ∧
    ∃ s, db'.steps = db.steps ++ [s] ∧ s.stepType = StepType.synthesizer := by
  unfold run_dummy_synthesis at h
  simp only [tick] at h
  repeat' split at h
  all_goals first
    | exact Except.noConfusion h
    | (injection h with h; subst h;
       refine ⟨rfl, ?_, _, rfl, rfl⟩; simp_all)

theorem run_web_search_shape {db db' : DB} {limit : Nat} {c : Collab}
    (h : run_web_search db limit c = .ok db') :
    db'.events = db.events ∧ db'.run.isSome = true ∧
    ∃ s, db'.steps = db.steps ++ [s] ∧ s.stepType = StepType.searcher := by
  unfold run_web_search at h
  simp only [tick] at h
  repeat' split at h
  all_goals first
    | exact Except.noConfusion h
    | (injection h with h; subst h;
       refine ⟨rfl, ?_, _, rfl, rfl⟩; simp_all)

theorem run_web_reader_shape {db db' : DB} {limit : Nat} {c : Collab}
    (h : run_web_reader db limit c = .ok db') :
    db'.events = db.events ∧ db'.run.isSome = true ∧
    ∃ s, db'.steps = db.steps ++ [s] ∧ s.stepType = StepType.reader := by
  unfold run_web_reader at h
  simp only [tick] at h
  repeat' split at h
  all_goals first
    | exact Except.noConfusion h
    | (injection h with h; subst h;
       refine ⟨rfl, ?_, _, rfl, rfl⟩; simp_all)

theorem run_llm_synthesis_shape {db db' : DB} {c : Collab}
    (h : run_llm_synthesis db c = .ok db') :
    db'.events = db.events ∧ db'.run.isSome = true ∧
    ∃ s, db'.steps = db.steps ++ [s] ∧ s.stepType = StepType.synthesizer := by
  unfold run_llm_synthesis at h
  simp only [tick] at h
  repeat' split at h
  all_goals first
    | exact Except.noConfusion h
    | (injection h with h; subst h;
       refine ⟨rfl, ?_, _, rfl, rfl⟩; simp_all)


/-- A successful `stepIfMissing` leaves events alone, preserves the run,
ensures the target step type and preserves existing step types. -/
theorem stepIfMissing_ok_shape {t : StepType} {f : DB → Except Err DB} {db db' : DB}
    (hf : ∀ ⦃d d' : DB⦄, f d = .ok d' → d'.events = d.events ∧ d'.run.isSome = true ∧
         ∃ s, d'.steps = d.steps ++ [s] ∧ s.stepType = t)
    (h : stepIfMissing t f db = .ok db') :
    db'.events = db.events ∧ (db.run.isSome = true → db'.run.isSome = true) ∧
    hasStepType db' t = true ∧
    (∀ t', hasStepType db t' = true → hasStepType db' t' = true) := by
  unfold stepIfMissing liftStage at h
  split at h
  · injection h with h
    subst h
    exact ⟨rfl, fun x => x, by assumption, fun _ hx => hx⟩
  · split at h
    · injection h with h
      subst h
      rename_i hmiss d' hfd
      obtain ⟨hev, hsome, s, hsteps, hty⟩ := hf hfd
      refine ⟨hev, fun _ => hsome, ?_, ?_⟩
      · simp [hasStepType, hsteps, List.any_append, hty]
      · intro t' hx
        simp [hasStepType, hsteps, List.any_append]
        left
        simpa [hasStepType] using hx
    · exact Except.noConfusion h

/-- A failing `stepIfMissing` reports the unchanged input state. -/
theorem stepIfMissing_error_state {t : StepType} {f : DB → Except Err DB}
    {db db1 : DB} {e : Err}
    (h : stepIfMissing t f db = .error (e, db1)) : db1 = db := by
  unfold stepIfMissing liftStage at h
  split at h
  · exact Except.noConfusion h
  · split at h
    · exact Except.noConfusion h
    · injection h with h
      cases h
      rfl

theorem execute_dummy_pipeline_ok_spec {db db' : DB}
    (h : execute_dummy_pipeline db = .ok db') :
    db'.events = db.events ∧ db'.run.isSome = true ∧
    hasStepType db' .searcher = true ∧ hasStepType db' .reader = true ∧
    hasStepType db' .synthesizer = true := by
  unfold execute_dummy_pipeline at h
  split at h
  · exact Except.noConfusion h
  split at h
  · exact Except.noConfusion h
  split at h
  · exact Except.noConfusion h
  split at h
  · exact Except.noConfusion h
  split at h
  · exact Except.noConfusion h
  · injection h with h
    subst h
    rename_i hno1 x1 db1 h1 x2 db2 h2 x3 db3 h3 hno3
    obtain ⟨e1, s1, t1, m1⟩ := stepIfMissing_ok_shape (fun _ _ hh => run_dummy_search_shape hh) h1
    obtain ⟨e2, s2, t2, m2⟩ := stepIfMissing_ok_shape (fun _ _ hh => run_dummy_reader_shape hh) h2
    obtain ⟨e3, s3, t3, m3⟩ := stepIfMissing_ok_shape (fun _ _ hh => run_dummy_synthesis_shape hh) h3
    refine ⟨by rw [e3, e2, e1], ?_, m3 _ (m2 _ t1), m3 _ t2, t3⟩
    simp only [Bool.not_eq_true, Option.isNone_eq_false_iff] at hno3
    exact hno3

theorem execute_pipeline_ok_spec {db db' : DB} {c : Collab}
    (h : execute_pipeline db c = .ok db') :
    db'.events = db.events ∧ db'.run.isSome = true ∧
    hasStepType db' .searcher = true ∧ hasStepType db' .reader = true ∧
    hasStepType db' .synthesizer = true := by
  unfold execute_pipeline at h
  split at h
  · exact Except.noConfusion h
  split at h
  · exact Except.noConfusion h
  split at h
  · exact Except.noConfusion h
  split at h
  · exact Except.noConfusion h
  split at h
  · exact Except.noConfusion h
  · injection h with h
    subst h
    rename_i hno1 x1 db1 h1 x2 db2 h2 x3 db3 h3 hno3
    obtain ⟨e1, s1, t1, m1⟩ := stepIfMissing_ok_shape (fun _ _ hh => run_web_search_shape hh) h1
    obtain ⟨e2, s2, t2, m2⟩ := stepIfMissing_ok_shape (fun _ _ hh => run_web_reader_shape hh) h2
    obtain ⟨e3, s3, t3, m3⟩ := stepIfMissing_ok_shape (fun _ _ hh => run_llm_synthesis_shape hh) h3
    refine ⟨by rw [e3, e2, e1], ?_, m3 _ (m2 _ t1), m3 _ t2, t3⟩
    simp only [Bool.not_eq_true, Option.isNone_eq_false_iff] at hno3
    exact hno3

theorem execute_dummy_pipeline_error_spec {db db1 : DB} {e : Err}
    (h : execute_dummy_pipeline db = .error (e, db1)) (hr : db.run.isSome = true) :
    db1.events = db.events ∧ db1.run.isSome = true := by
  have hrn : db.run.isNone = false := by
    cases hx : db.run <;> simp_all
  unfold execute_dummy_pipeline at h
  rw [hrn] at h
  simp only [Bool.false_eq_true, if_false] at h
  cases h1 : stepIfMissing .searcher run_dummy_search db with
  | error ep =>
    simp only [h1] at h
    injection h with h
    subst h
    obtain rfl := stepIfMissing_error_state h1
    exact ⟨rfl, hr⟩
  | ok db2 =>
    simp only [h1] at h
    obtain ⟨e1, s1, t1, m1⟩ := stepIfMissing_ok_shape (fun _ _ hh => run_dummy_search_shape hh) h1
    cases h2 : stepIfMissing .reader run_dummy_reader db2 with
    | error ep =>
      simp only [h2] at h
      injection h with h
      subst h
      obtain rfl := stepIfMissing_error_state h2
      exact ⟨e1, s1 hr⟩
    | ok db3 =>
      simp only [h2] at h
      obtain ⟨e2, s2, t2, m2⟩ := stepIfMissing_ok_shape (fun _ _ hh => run_dummy_reader_shape hh) h2
      cases h3 : stepIfMissing .synthesizer run_dummy_synthesis db3 with
      | error ep =>
        simp only [h3] at h
        injection h with h
        subst h
        obtain rfl := stepIfMissing_error_state h3
        exact ⟨by rw [e2, e1], s2 (s1 hr)⟩
      | ok db4 =>
        simp only [h3] at h
        obtain ⟨e3, s3, t3, m3⟩ := stepIfMissing_ok_shape (fun _ _ hh => run_dummy_synthesis_shape hh) h3
        have h4 : db4.run.isNone = false := by
          have := s3 (s2 (s1 hr))
          cases hx : db4.run <;> simp_all
        rw [h4] at h
        simp only [Bool.false_eq_true, if_false] at h
        exact Except.noConfusion h

theorem execute_pipeline_error_spec {db db1 : DB} {e : Err} {c : Collab}
    (h : execute_pipeline db c = .error (e, db1)) (hr : db.run.isSome = true) :
    db1.events = db.events ∧ db1.run.isSome = true := by
  have hrn : db.run.isNone = false := by
    cases hx : db.run <;> simp_all
  unfold execute_pipeline at h
  rw [hrn] at h
  simp only [Bool.false_eq_true, if_false] at h
  cases h1 : stepIfMissing .searcher (fun d => run_web_search d 5 c) db with
  | error ep =>
    simp only [h1] at h
    injection h with h
    subst h
    obtain rfl := stepIfMissing_error_state h1
    exact ⟨rfl, hr⟩
  | ok db2 =>
    simp only [h1] at h
    obtain ⟨e1, s1, t1, m1⟩ := stepIfMissing_ok_shape (fun _ _ hh => run_web_search_shape hh) h1
    cases h2 : stepIfMissing .reader (fun d => run_web_reader d 5 c) db2 with
    | error ep =>
      simp only [h2] at h
      injection h with h
      subst h
      obtain rfl := stepIfMissing_error_state h2
      exact ⟨e1, s1 hr⟩
    | ok db3 =>
      simp only [h2] at h
      obtain ⟨e2, s2, t2, m2⟩ := stepIfMissing_ok_shape (fun _ _ hh => run_web_reader_shape hh) h2
      cases h3 : stepIfMissing .synthesizer (fun d => run_llm_synthesis d c) db3 with
      | error ep =>
        simp only [h3] at h
        injection h with h
        subst h
        obtain rfl := stepIfMissing_error_state h3
        exact ⟨by rw [e2, e1], s2 (s1 hr)⟩
      | ok db4 =>
        simp only [h3] at h
        obtain ⟨e3, s3, t3, m3⟩ := stepIfMissing_ok_shape (fun _ _ hh => run_llm_synthesis_shape hh) h3
        have h4 : db4.run.isNone = false := by
          have := s3 (s2 (s1 hr))
          cases hx : db4.run <;> simp_all
        rw [h4] at h
        simp only [Bool.false_eq_true, if_false] at h
        exact Except.noConfusion h

theorem execute_dummy_pipeline_skip {db : DB} (hr : db.run.isNone = false)
    (h1 : hasStepType db .searcher = true) (h2 : hasStepType db .reader = true)
    (h3 : hasStepType db .synthesizer = true) :
    execute_dummy_pipeline db = .ok db := by
  obtain ⟨r, hx⟩ : ∃ r, db.run = some r := by
    cases hx : db.run
    · rw [hx] at hr; simp at hr
    · exact ⟨_, rfl⟩
  unfold execute_dummy_pipeline
  rw [hr]
  simp [stepIfMissing, h1, h2, h3, hx]

theorem execute_pipeline_skip {db : DB} {c : Collab} (hr : db.run.isNone = false)
    (h1 : hasStepType db .searcher = true) (h2 : hasStepType db .reader = true)
    (h3 : hasStepType db .synthesizer = true) :
    execute_pipeline db c = .ok db := by
  obtain ⟨r, hx⟩ : ∃ r, db.run = some r := by
    cases hx : db.run
    · rw [hx] at hr; simp at hr
    · exact ⟨_, rfl⟩
  unfold execute_pipeline
  rw [hr]
  simp [stepIfMissing, h1, h2, h3, hx]

theorem afterStarted_events (db : DB) (m : Mode) :
    (afterStarted db m).events = db.events ++ [startedEvent m] := rfl

theorem afterStarted_run (db : DB) (m : Mode) :
    (afterStarted db m).run = db.run := rfl

theorem afterStarted_steps (db : DB) (m : Mode) :
    (afterStarted db m).steps = db.steps := rfl

theorem afterStarted_sources (db : DB) (m : Mode) :
    (afterStarted db m).sources = db.sources := rfl

/-- C2: every `execute` invocation on an existing run appends exactly one
`started` event and exactly one terminal event — `completed` on success and
`failed` on error, never both — the terminal event's `duration_ms` is
non-negative, and on error the run's status is set to `failed` and its
`error_message` to the exception message before the exception is
re-raised. -/
theorem c2_execute_event_contract (db : DB) (m : Mode) (c : Collab)
    (hrun : db.run.isSome = true) :
    (∀ db', execute db m c = .ok db' →
       ∃ d : Int, 0 ≤ d ∧
         db'.events = db.events ++ [startedEvent m, completedEvent m d]) ∧
    (∀ e db', execute db m c = .error (e, db') →
       ∃ d : Int, 0 ≤ d ∧
         db'.events = db.events ++ [startedEvent m, failedEvent m d e.message] ∧
         ∃ r, db'.run = some r ∧ r.status = .failed ∧
           r.errorMessage = some e.message) := by
  obtain ⟨r0, hr0⟩ := Option.isSome_iff_exists.mp hrun
  have hsomeA : ∀ m', (afterStarted db m').run.isSome = true := by
    intro m'; rw [afterStarted_run, hr0]; rfl
  constructor
  · intro db' hok
    unfold execute at hok
    simp only [hr0] at hok
    cases m
    case dummy =>
      cases hp : execute_dummy_pipeline (afterStarted db .dummy) with
      | error ep =>
        obtain ⟨e1, db1⟩ := ep
        simp only [hp] at hok
        exact Except.noConfusion hok
      | ok db1 =>
        simp only [hp, tick] at hok
        injection hok with hok
        subst hok
        obtain ⟨hev, -⟩ := execute_dummy_pipeline_ok_spec hp
        refine ⟨((db1.clock - db.clock : Nat) : Int), Int.natCast_nonneg _, ?_⟩
        simp [hev, afterStarted_events]
    case real =>
      cases hp : execute_pipeline (afterStarted db .real) c with
      | error ep =>
        obtain ⟨e1, db1⟩ := ep
        simp only [hp] at hok
        exact Except.noConfusion hok
      | ok db1 =>
        simp only [hp, tick] at hok
        injection hok with hok
        subst hok
        obtain ⟨hev, -⟩ := execute_pipeline_ok_spec hp
        refine ⟨((db1.clock - db.clock : Nat) : Int), Int.natCast_nonneg _, ?_⟩
        simp [hev, afterStarted_events]
  · intro e db' herr
    unfold execute at herr
    simp only [hr0] at herr
    cases m
    case dummy =>
      cases hp : execute_dummy_pipeline (afterStarted db .dummy) with
      | ok db1 =>
        simp only [hp, tick] at herr
        exact Except.noConfusion herr
      | error ep =>
        obtain ⟨e1, db1⟩ := ep
        obtain ⟨hev, hsome1⟩ := execute_dummy_pipeline_error_spec hp (hsomeA .dummy)
        obtain ⟨r1, hr1⟩ := Option.isSome_iff_exists.mp hsome1
        simp only [hp, tick, hr1] at herr
        injection herr with herr
        cases herr
        refine ⟨((db1.clock - db.clock : Nat) : Int), Int.natCast_nonneg _, ?_, ?_⟩
        · simp [hev, afterStarted_events]
        · exact ⟨_, rfl, rfl, rfl⟩
    case real =>
      cases hp : execute_pipeline (afterStarted db .real) c with
      | ok db1 =>
        simp only [hp, tick] at herr
        exact Except.noConfusion herr
      | error ep =>
        obtain ⟨e1, db1⟩ := ep
        obtain ⟨hev, hsome1⟩ := execute_pipeline_error_spec hp (hsomeA .real)
        obtain ⟨r1, hr1⟩ := Option.isSome_iff_exists.mp hsome1
        simp only [hp, tick, hr1] at herr
        injection herr with herr
        cases herr
        refine ⟨((db1.clock - db.clock : Nat) : Int), Int.natCast_nonneg _, ?_, ?_⟩
        · simp [hev, afterStarted_events]
        · exact ⟨_, rfl, rfl, rfl⟩

theorem execute_ok_types {db db1 : DB} {m : Mode} {c : Collab}
    (h : execute db m c = .ok db1) :
    db1.run.isSome = true ∧ hasStepType db1 .searcher = true ∧
    hasStepType db1 .reader = true ∧ hasStepType db1 .synthesizer = true := by
  unfold execute at h
  cases hr : db.run <;> simp only [hr] at h
  · exact Except.noConfusion h
  · cases m
    case dummy =>
      cases hp : execute_dummy_pipeline (afterStarted db .dummy) with
      | error ep =>
        obtain ⟨e1, d1⟩ := ep
        simp only [hp] at h
        exact Except.noConfusion h
      | ok dbp =>
        simp only [hp, tick] at h
        injection h with h
        subst h
        obtain ⟨-, hsome, u1, u2, u3⟩ := execute_dummy_pipeline_ok_spec hp
        exact ⟨hsome, u1, u2, u3⟩
    case real =>
      cases hp : execute_pipeline (afterStarted db .real) c with
      | error ep =>
        obtain ⟨e1, d1⟩ := ep
        simp only [hp] at h
        exact Except.noConfusion h
      | ok dbp =>
        simp only [hp, tick] at h
        injection h with h
        subst h
        obtain ⟨-, hsome, u1, u2, u3⟩ := execute_pipeline_ok_spec hp
        exact ⟨hsome, u1, u2, u3⟩

/-- C3: a second `execute` with the same mode after a successful `execute`
succeeds, creates no new steps and no new sources, does not change the run's
status, and appends exactly one fresh `started`/`completed` event pair. -/
theorem c3_execute_idempotent (db db1 : DB) (m : Mode) (c c' : Collab)
    (h : execute db m c = .ok db1) :
    ∃ db2, execute db1 m c' = .ok db2 ∧
      db2.steps = db1.steps ∧ db2.sources = db1.sources ∧
      db2.run.map RunData.status = db1.run.map RunData.status ∧
      ∃ d : Int, 0 ≤ d ∧
        db2.events = db1.events ++ [startedEvent m, completedEvent m d] := by
  obtain ⟨hsome1, t1, t2, t3⟩ := execute_ok_types h
  obtain ⟨r1, hr1⟩ := Option.isSome_iff_exists.mp hsome1
  cases m
  case dummy =>
    have hno : (afterStarted db1 .dummy).run.isNone = false := by
      rw [afterStarted_run, hr1]; rfl
    have hskip := execute_dummy_pipeline_skip hno t1 t2 t3
    cases hq : execute db1 .dummy c' with
    | error ep =>
      exfalso
      obtain ⟨e1, d1⟩ := ep
      unfold execute at hq
      simp only [hr1, hskip, tick] at hq
      exact Except.noConfusion hq
    | ok db2 =>
      have hq2 := hq
      unfold execute at hq2
      simp only [hr1, hskip, tick] at hq2
      injection hq2 with hq2
      refine ⟨db2, rfl, ?_, ?_, ?_, ?_⟩ <;> rw [← hq2]
      · rfl
      · rfl
      · rfl
      · refine ⟨(((afterStarted db1 Mode.dummy).clock - db1.clock : Nat) : Int),
          Int.natCast_nonneg _, ?_⟩
        simp [afterStarted_events]
  case real =>
    have hno : (afterStarted db1 .real).run.isNone = false := by
      rw [afterStarted_run, hr1]; rfl
    have hskip := execute_pipeline_skip (c := c') hno t1 t2 t3
    cases hq : execute db1 .real c' with
    | error ep =>
      exfalso
      obtain ⟨e1, d1⟩ := ep
      unfold execute at hq
      simp only [hr1, hskip, tick] at hq
      exact Except.noConfusion hq
    | ok db2 =>
      have hq2 := hq
      unfold execute at hq2
      simp only [hr1, hskip, tick] at hq2
      injection hq2 with hq2
      refine ⟨db2, rfl, ?_, ?_, ?_, ?_⟩ <;> rw [← hq2]
      · rfl
      · rfl
      · rfl
      · refine ⟨(((afterStarted db1 Mode.real).clock - db1.clock : Nat) : Int),
          Int.natCast_nonneg _, ?_⟩
        simp [afterStarted_events]


/-- C10 counterexample: the endpoint accepts `limit=1000`, which lies
outside `[1, 100]` — the claim's bound is not enforced anywhere in
`list_research_runs`. -/
theorem c10_limit_not_validated_counterexample :
    acceptsLimit 1000 = true ∧ ¬((1 : Int) ≤ 1000 ∧ (1000 : Int) ≤ 100) := by
  decide

/-- C10 (amended): the listed runs are ordered newest-first by creation
time and the defaults are `limit=20`, `offset=0`; the `limit` parameter is
not validated — every integer is accepted. -/
theorem c10_list_runs_amended :
    (∀ rows : List RunRow, list_research_runs rows = list_research_runs rows 20 0) ∧
    (∀ (rows : List RunRow) (limit offset : Nat),
       List.Sorted newestFirst (list_research_runs rows limit offset)) ∧
    (∀ l : Int, acceptsLimit l = true) := by
  refine ⟨fun rows => rfl, ?_, fun _ => rfl⟩
  intro rows limit offset
  haveI htot : IsTotal RunRow newestFirst :=
    ⟨fun a b => (Nat.le_total b.created_at a.created_at).imp id id⟩
  haveI htr : IsTrans RunRow newestFirst :=
    ⟨fun a b c hab hbc => Nat.le_trans hbc hab⟩
  have hs : List.Sorted newestFirst (rows.insertionSort newestFirst) :=
    List.sorted_insertionSort newestFirst rows
  exact List.Pairwise.take (List.Pairwise.drop hs)

/-- C5 counterexample: `http://:80/x` has an http scheme and an EMPTY
hostname, yet `_validate_url` passes it (its netloc `:80` is non-empty) and
`fetch_html` proceeds to network I/O — refuting the claim that an empty host
raises `UnsafeUrl`. -/
theorem c5_empty_host_counterexample :
    urlScheme "http://:80/x" = "http" ∧
    urlHostname "http://:80/x" = "" ∧
    validate_url "http://:80/x" = .ok () ∧
    fetch_html (fun _ => .error "connection refused") "http://:80/x"
      = .error (.transport "connection refused") := by
  exact ⟨by decide, by decide, by decide, by decide⟩

/-- C5 (amended): `fetch_html` raises `UnsafeUrl` before any network I/O
exactly when the scheme is neither http nor https, or the NETLOC (authority)
is empty — the hostname may still be empty when the netloc is not, and such
URLs pass — or the hostname equals `localhost`, or the hostname parses as a
private/loopback/link-local/reserved/multicast IP literal. -/
theorem c5_validate_url_amended (url : String) (net : String → Except String String) :
    (∃ m, fetch_html net url = .error (.unsafeUrl m)) ↔
      (¬(urlScheme url = "http" ∨ urlScheme url = "https") ∨
       urlNetloc url = "" ∨
       urlHostname url = "localhost" ∨
       is_private_or_local_ip (urlHostname url) = true) := by
  unfold fetch_html validate_url
  by_cases h1 : urlScheme url = "http" ∨ urlScheme url = "https"
  · rw [if_neg (not_not_intro h1)]
    by_cases h2 : urlNetloc url = ""
    · rw [if_pos h2]
      exact iff_of_true ⟨_, rfl⟩ (Or.inr (Or.inl h2))
    · rw [if_neg h2]
      by_cases h3 : urlHostname url = "localhost"
      · rw [if_pos h3]
        exact iff_of_true ⟨_, rfl⟩ (Or.inr (Or.inr (Or.inl h3)))
      · rw [if_neg h3]
        by_cases h4 : is_private_or_local_ip (urlHostname url) = true
        · rw [if_pos h4]
          exact iff_of_true ⟨_, rfl⟩ (Or.inr (Or.inr (Or.inr h4)))
        · rw [if_neg h4]
          constructor
          · rintro ⟨m, hm⟩
            cases hn : net url <;> rw [hn] at hm
            · injection hm with hm
              exact Err.noConfusion hm
            · exact Except.noConfusion hm
          · rintro (h | h | h | h)
            · exact absurd h1 h
            · exact absurd h h2
            · exact absurd h h3
            · exact absurd h h4
  · rw [if_pos h1]
    exact iff_of_true ⟨_, rfl⟩ (Or.inl h1)

/-- C1 (code bug): `run_llm_synthesis` marks the run `completed` (line 794)
but constructs its `ResearchStep` without a `status` argument
(lines 775-791), so the synthesizer step is persisted with the column
default `pending` — a completed run with no completed synthesizer step.
The dummy twin `run_dummy_synthesis` does pass `status=COMPLETED`
(line 231), confirming the omission is a slip. -/
theorem c1_llm_synthesis_leaves_step_pending :
    isOkE (run_llm_synthesis dbSynthReady collab0) = true ∧
    (okOr (run_llm_synthesis dbSynthReady collab0) dbSynthReady).run.map
        RunData.status = some RunStatus.completed ∧
    ((okOr (run_llm_synthesis dbSynthReady collab0) dbSynthReady).steps.filter
        (fun s => s.stepType = StepType.synthesizer)).map Step.status
      = [StepStatus.pending] ∧
    ((okOr (run_dummy_synthesis dbSynthReady) dbSynthReady).steps.filter
        (fun s => s.stepType = StepType.synthesizer)).map Step.status
      = [StepStatus.completed] := by
  decide

/-- C7 (code bug): the committed synthesizer output is built as
`{**output_payload, "_meta": {raw_completion, parse_error, source_count}}`
(lines 783-790); the later `"_meta"` key replaces the `_meta` the coverage
code had stored inside `output_payload` (lines 765-767), so
`unique_sources_cited` and `coverage_ratio` are absent from the persisted
step output even though the enforcement code computed and stored both, while
`source_count` does equal the number of loaded sources. -/
theorem c7_persisted_meta_overridden :
    isOkE (run_llm_synthesis dbSynthReady collab0) = true ∧
    lookupMeta (lastStepMeta (okOr (run_llm_synthesis dbSynthReady collab0) dbSynthReady))
      "source_count" = some (.nat 1) ∧
    lookupMeta (lastStepMeta (okOr (run_llm_synthesis dbSynthReady collab0) dbSynthReady))
      "raw_completion" = some (.str "not json") ∧
    lookupMeta (lastStepMeta (okOr (run_llm_synthesis dbSynthReady collab0) dbSynthReady))
      "parse_error" = some (.str "Expecting value: line 1 column 1 (char 0)") ∧
    lookupMeta (lastStepMeta (okOr (run_llm_synthesis dbSynthReady collab0) dbSynthReady))
      "unique_sources_cited" = none ∧
    lookupMeta (lastStepMeta (okOr (run_llm_synthesis dbSynthReady collab0) dbSynthReady))
      "coverage_ratio" = none ∧
    lookupMeta (enforceCitations degradedParsePayload 1).payloadMeta
      "unique_sources_cited" = some (.nat 0) ∧
    lookupMeta (enforceCitations degradedParsePayload 1).payloadMeta
      "coverage_ratio" = some (.rat 0) := by
  decide


/-- C4 counterexample: with planner and searcher done but zero sources, the
dummy reader raises `InvalidState` ("No sources available to read.")
although no predecessor is missing and no reader step exists — and its real
counterpart `run_web_reader` succeeds on the same state, so the twins'
preconditions differ. -/
theorem c4_dummy_reader_no_sources_counterexample :
    run_dummy_reader dbNoSources
      = .error (.invalidState "No sources available to read.") ∧
    hasStepType dbNoSources .reader = false ∧
    hasStepType dbNoSources .searcher = true ∧
    isOkE (run_web_reader dbNoSources 5 collab0) = true := by
  refine ⟨by decide, by decide, by decide, by decide⟩

/-- C4 (amended): exact `InvalidState` characterization of all six stage
entry points: predecessor-missing or duplicate-stage for all; additionally
no-sources for the DUMMY reader and for the real synthesizer, and
LLM-client-unavailable for the real synthesizer.  The search twins agree;
the reader and synthesizer twins differ in the no-sources condition. -/
theorem c4_stage_preconditions_amended (db : DB) (c : Collab) (limit : Nat)
    (hrun : db.run.isSome = true) :
    (raisesInvalidState (run_dummy_search db) ↔
       hasStepType db .searcher = true ∨ hasStepType db .planner = false) ∧
    (raisesInvalidState (run_web_search db limit c) ↔
       hasStepType db .searcher = true ∨ hasStepType db .planner = false) ∧
    (raisesInvalidState (run_dummy_reader db) ↔
       hasStepType db .reader = true ∨ hasStepType db .searcher = false ∨
       db.sources.isEmpty = true) ∧
    (raisesInvalidState (run_web_reader db limit c) ↔
       hasStepType db .reader = true ∨ hasStepType db .searcher = false) ∧
    (raisesInvalidState (run_dummy_synthesis db) ↔
       hasStepType db .synthesizer = true ∨ hasStepType db .reader = false) ∧
    (raisesInvalidState (run_llm_synthesis db c) ↔
       hasStepType db .synthesizer = true ∨ hasStepType db .reader = false ∨
       db.sources.isEmpty = true ∨ c.llmError ≠ none) := by
  obtain ⟨r0, hr0⟩ := Option.isSome_iff_exists.mp hrun
  refine ⟨?_, ?_, ?_, ?_, ?_, ?_⟩
  · unfold run_dummy_search
    rw [hr0]
    by_cases h1 : hasStepType db .searcher = true
    · simp [h1, raisesInvalidState]
    · by_cases h2 : hasStepType db .planner = true
      · simp [h1, h2, raisesInvalidState, tick]
      · simp [h1, h2, raisesInvalidState]
  · unfold run_web_search
    rw [hr0]
    by_cases h1 : hasStepType db .searcher = true
    · simp [h1, raisesInvalidState]
    · by_cases h2 : hasStepType db .planner = true
      · cases hcs : c.search r0.query limit <;>
          simp [h1, h2, hcs, raisesInvalidState, tick]
      · simp [h1, h2, raisesInvalidState]
  · unfold run_dummy_reader
    rw [hr0]
    by_cases h1 : hasStepType db .reader = true
    · simp [h1, raisesInvalidState]
    · by_cases h2 : hasStepType db .searcher = true
      · by_cases h3 : db.sources.isEmpty = true
        · simp [h1, h2, h3, raisesInvalidState]
        · simp [h1, h2, h3, raisesInvalidState, tick]
      · simp [h1, h2, raisesInvalidState]
  · unfold run_web_reader
    rw [hr0]
    by_cases h1 : hasStepType db .searcher = true
    · by_cases h2 : hasStepType db .reader = true
      · simp [h1, h2, raisesInvalidState]
      · simp [h1, h2, raisesInvalidState, tick]
        intro x
        split <;> simp
    · simp [h1, raisesInvalidState]
  · unfold run_dummy_synthesis
    rw [hr0]
    by_cases h1 : hasStepType db .synthesizer = true
    · simp [h1, raisesInvalidState]
    · by_cases h2 : hasStepType db .reader = true
      · simp [h1, h2, raisesInvalidState, tick]
      · simp [h1, h2, raisesInvalidState]
  · unfold run_llm_synthesis
    rw [hr0]
    by_cases h1 : hasStepType db .synthesizer = true
    · simp [h1, raisesInvalidState]
    · by_cases h2 : hasStepType db .reader = true
      · by_cases h3 : db.sources.isEmpty = true
        · simp [h1, h2, h3, raisesInvalidState]
        · cases hle : c.llmError with
          | some e => simp [h1, h2, h3, hle, raisesInvalidState]
          | none =>
            cases hlg : c.llmGenerate (buildPrompt r0.query (buildContext db.sources)) with
            | error m => simp [h1, h2, h3, hle, hlg, raisesInvalidState, tick]
            | ok raw =>
              cases hpv : c.parseValidate raw <;>
                simp [h1, h2, h3, hle, hlg, hpv, raisesInvalidState, tick]
      · simp [h1, h2, raisesInvalidState]

/-- Witness: the amended precondition characterization evaluated on the
seeded run. -/
theorem c4_stage_preconditions_amended_witness :
    dbSeeded.run.isSome = true ∧
    ((raisesInvalidState (run_dummy_search dbSeeded) ↔
       hasStepType dbSeeded .searcher = true ∨ hasStepType dbSeeded .planner = false) ∧
    (raisesInvalidState (run_web_search dbSeeded 5 collab0) ↔
       hasStepType dbSeeded .searcher = true ∨ hasStepType dbSeeded .planner = false) ∧
    (raisesInvalidState (run_dummy_reader dbSeeded) ↔
       hasStepType dbSeeded .reader = true ∨ hasStepType dbSeeded .searcher = false ∨
       dbSeeded.sources.isEmpty = true) ∧
    (raisesInvalidState (run_web_reader dbSeeded 5 collab0) ↔
       hasStepType dbSeeded .reader = true ∨ hasStepType dbSeeded .searcher = false) ∧
    (raisesInvalidState (run_dummy_synthesis dbSeeded) ↔
       hasStepType dbSeeded .synthesizer = true ∨ hasStepType dbSeeded .reader = false) ∧
    (raisesInvalidState (run_llm_synthesis dbSeeded collab0) ↔
       hasStepType dbSeeded .synthesizer = true ∨ hasStepType dbSeeded .reader = false ∨
       dbSeeded.sources.isEmpty = true ∨ collab0.llmError ≠ none)) :=
  ⟨rfl, c4_stage_preconditions_amended dbSeeded collab0 5 rfl⟩


/-- The cap really caps: the second argument bounds the result. -/
theorem pyMin_le_right (a b : Rat) : pyMin a b ≤ b := by
  unfold pyMin
  split
  · assumption
  · exact le_refl b

/-- The missing-citation step leaves the four text fields alone. -/
theorem applyMissingCitations_fields (p : OutputPayload) :
    (applyMissingCitations p).summary = p.summary ∧
    (applyMissingCitations p).key_points = p.key_points ∧
    (applyMissingCitations p).risks = p.risks ∧
    (applyMissingCitations p).recommendation = p.recommendation := by
  unfold applyMissingCitations
  dsimp only []
  split <;> simp

/-- The coverage step leaves the four text fields alone. -/
theorem applyCoverage_fields (p : OutputPayload) (sc : Nat) :
    (applyCoverage p sc).summary = p.summary ∧
    (applyCoverage p sc).key_points = p.key_points ∧
    (applyCoverage p sc).risks = p.risks ∧
    (applyCoverage p sc).recommendation = p.recommendation := by
  unfold applyCoverage
  dsimp only []
  repeat' split
  all_goals simp

/-- With uncited fields present, confidence is capped at 0.3 and the
warning listing exactly those fields is appended. -/
theorem applyMissingCitations_of_missing {p : OutputPayload}
    (h : missingCitationFields p.key_points p.risks ≠ []) :
    (applyMissingCitations p).confidence = pyMin p.confidence (mkRat 3 10) ∧
    (applyMissingCitations p).warnings = p.warnings ++
      [Warning.missingCitations (missingCitationFields p.key_points p.risks)] := by
  unfold applyMissingCitations
  dsimp only []
  rw [if_neg (by simpa using h)]
  exact ⟨rfl, rfl⟩

/-- With at least three sources and low coverage, confidence is capped at
0.4 and the coverage warning is appended. -/
theorem applyCoverage_of_low {p : OutputPayload} {sc : Nat}
    (h3 : 3 ≤ sc)
    (hlow : mkRat (citedList (p.key_points ++ p.risks) sc).length sc < mkRat 2 5) :
    (applyCoverage p sc).confidence = pyMin p.confidence (mkRat 2 5) ∧
    (applyCoverage p sc).warnings = p.warnings ++
      [Warning.lowSourceCoverage (mkRat (citedList (p.key_points ++ p.risks) sc).length sc)] := by
  unfold applyCoverage
  dsimp only []
  have hpos : sc > 0 := by omega
  rw [if_pos hpos, if_pos (by simp [h3, hlow])]
  exact ⟨rfl, rfl⟩

/-- The coverage step either keeps the confidence or caps it at 0.4. -/
theorem applyCoverage_confidence_cases (p : OutputPayload) (sc : Nat) :
    (applyCoverage p sc).confidence = p.confidence ∨
    (applyCoverage p sc).confidence = pyMin p.confidence (mkRat 2 5) := by
  unfold applyCoverage
  dsimp only []
  repeat' split
  all_goals simp

/-- The missing-citation step either keeps the confidence or caps it at 0.3. -/
theorem applyMissingCitations_confidence_cases (p : OutputPayload) :
    (applyMissingCitations p).confidence = p.confidence ∨
    (applyMissingCitations p).confidence = pyMin p.confidence (mkRat 3 10) := by
  unfold applyMissingCitations
  dsimp only []
  split <;> simp

/-- The degraded parse-failure payload keeps confidence 0.2 through the
enforcement block (its risk entry is uncited and coverage is zero, but both
caps exceed 0.2). -/
theorem enforce_degradedParse_confidence (sc : Nat) :
    (enforceCitations degradedParsePayload sc).confidence = mkRat 1 5 := by
  have h1 : pyMin (mkRat 1 5) (mkRat 3 10) = mkRat 1 5 := by decide
  have h2 : pyMin (mkRat 1 5) (mkRat 2 5) = mkRat 1 5 := by decide
  have hm : (applyMissingCitations degradedParsePayload).confidence = mkRat 1 5 := by
    rcases applyMissingCitations_confidence_cases degradedParsePayload with h | h
    · rw [h]
      rfl
    · rw [h]
      exact h1
  unfold enforceCitations
  rcases applyCoverage_confidence_cases (applyMissingCitations degradedParsePayload) sc with h | h
  · rw [h, hm]
  · rw [h, hm]
    exact h2

/-- The enforcement block never changes the summary. -/
theorem enforceCitations_summary (p : OutputPayload) (sc : Nat) :
    (enforceCitations p sc).summary = p.summary := by
  unfold enforceCitations
  rw [(applyCoverage_fields (applyMissingCitations p) sc).1,
      (applyMissingCitations_fields p).1]


/-- A cap below the bound is a no-op. -/
theorem pyMin_eq_left {a b : Rat} (h : a ≤ b) : pyMin a b = a := by
  unfold pyMin
  rw [if_pos h]

/-- The coverage step only appends warnings. -/
theorem applyCoverage_warnings_mono (p : OutputPayload) (sc : Nat) :
    ∀ w ∈ p.warnings, w ∈ (applyCoverage p sc).warnings := by
  unfold applyCoverage
  dsimp only []
  intro w hw
  repeat' split
  all_goals simp [hw]

/-- C8: for every synthesizer payload, if any `key_points[i]` or `risks[i]`
lacks a `[digits]` citation then a `missing_citations` warning listing
exactly those fields is appended and confidence becomes `min(confidence,
0.3)`; and with `cited` the distinct `[n]` with `1 <= n <= source_count`
from key_points and risks and `coverage_ratio = |cited| / source_count`, if
`source_count >= 3` and the ratio is below 0.4 then a `low_source_coverage`
warning carrying the ratio is appended and confidence is capped at 0.4. -/
theorem c8_citation_enforcement (p : OutputPayload) (sc : Nat) :
    (missingCitationFields p.key_points p.risks ≠ [] →
       (enforceCitations p sc).confidence = pyMin p.confidence (mkRat 3 10) ∧
       Warning.missingCitations (missingCitationFields p.key_points p.risks)
         ∈ (enforceCitations p sc).warnings) ∧
    (3 ≤ sc →
     mkRat (citedList (p.key_points ++ p.risks) sc).length sc < mkRat 2 5 →
       Warning.lowSourceCoverage
           (mkRat (citedList (p.key_points ++ p.risks) sc).length sc)
         ∈ (enforceCitations p sc).warnings ∧
       (enforceCitations p sc).confidence ≤ mkRat 2 5) := by
  have hkp : (applyMissingCitations p).key_points = p.key_points :=
    (applyMissingCitations_fields p).2.1
  have hrk : (applyMissingCitations p).risks = p.risks :=
    (applyMissingCitations_fields p).2.2.1
  constructor
  · intro hmiss
    obtain ⟨hconf1, hwarn1⟩ := applyMissingCitations_of_missing hmiss
    constructor
    · have hle : pyMin p.confidence (mkRat 3 10) ≤ mkRat 2 5 :=
        le_trans (pyMin_le_right _ _) (by decide)
      unfold enforceCitations
      rcases applyCoverage_confidence_cases (applyMissingCitations p) sc with h | h
      · rw [h, hconf1]
      · rw [h, hconf1, pyMin_eq_left hle]
    · have hmem : Warning.missingCitations (missingCitationFields p.key_points p.risks)
          ∈ (applyMissingCitations p).warnings := by
        rw [hwarn1]
        exact List.mem_append_right _ (List.mem_singleton.mpr rfl)
      exact applyCoverage_warnings_mono (applyMissingCitations p) sc _ hmem
  · intro h3 hlow
    have hlow' : mkRat (citedList ((applyMissingCitations p).key_points ++
        (applyMissingCitations p).risks) sc).length sc < mkRat 2 5 := by
      rw [hkp, hrk]; exact hlow
    obtain ⟨hconf2, hwarn2⟩ := applyCoverage_of_low h3 hlow'
    constructor
    · unfold enforceCitations
      rw [hwarn2, hkp, hrk]
      exact List.mem_append_right _ (List.mem_singleton.mpr rfl)
    · unfold enforceCitations
      rw [hconf2]
      exact pyMin_le_right _ _

/-- Witness: both enforcement branches fire on a payload with one uncited
key point and three sources. -/
theorem c8_citation_enforcement_witness :
    missingCitationFields c8Payload.key_points c8Payload.risks ≠ [] ∧
    3 ≤ 3 ∧
    mkRat (citedList (c8Payload.key_points ++ c8Payload.risks) 3).length 3 < mkRat 2 5 ∧
    ((enforceCitations c8Payload 3).confidence
        = pyMin c8Payload.confidence (mkRat 3 10) ∧
      Warning.missingCitations (missingCitationFields c8Payload.key_points c8Payload.risks)
        ∈ (enforceCitations c8Payload 3).warnings) ∧
    (Warning.lowSourceCoverage
        (mkRat (citedList (c8Payload.key_points ++ c8Payload.risks) 3).length 3)
        ∈ (enforceCitations c8Payload 3).warnings ∧
      (enforceCitations c8Payload 3).confidence ≤ mkRat 2 5) :=
  ⟨by decide, by decide, by decide,
   (c8_citation_enforcement c8Payload 3).1 (by decide),
   (c8_citation_enforcement c8Payload 3).2 (by decide) (by decide)⟩

/-- C9: when the LLM completion is not valid JSON (`json.loads` raises and
the parse oracle reports `jsonFail`), `run_llm_synthesis` does not raise: it
commits a synthesizer step whose output has summary "Failed to parse model
output as JSON.", confidence 0.2, and a non-null `_meta.parse_error`, and
the run's status becomes `completed`. -/
theorem c9_parse_failure_recovery (db : DB) (c : Collab) (r : RunData)
    (raw perr : String)
    (hrun : db.run = some r)
    (hsy : hasStepType db .synthesizer = false)
    (hrd : hasStepType db .reader = true)
    (hsrc : db.sources.isEmpty = false)
    (hllm : c.llmError = none)
    (hgen : c.llmGenerate (buildPrompt r.query (buildContext db.sources)) = .ok raw)
    (hparse : c.parseValidate raw = .jsonFail perr) :
    ∃ db' s, run_llm_synthesis db c = .ok db' ∧
      db'.run.map RunData.status = some RunStatus.completed ∧
      db'.steps = db.steps ++ [s] ∧
      ∃ persisted, s.output = .synthOut persisted ∧
        persisted.summary = "Failed to parse model output as JSON." ∧
        persisted.confidence = mkRat 1 5 ∧
        lookupMeta persisted.payloadMeta "parse_error" = some (.str perr) := by
  unfold run_llm_synthesis
  rw [hrun]
  simp only [hsy, hrd, hsrc, hllm, hgen, hparse, tick, Bool.false_eq_true, Bool.not_true,
    Bool.not_false, if_false, if_true, reduceIte]
  refine ⟨_, _, rfl, rfl, rfl, _, rfl, ?_, ?_, ?_⟩
  · exact enforceCitations_summary degradedParsePayload db.sources.length
  · exact enforce_degradedParse_confidence db.sources.length
  · rfl

/-- Witness: the parse-failure recovery on a concrete synthesis-ready run
whose LLM returns `not json`. -/
theorem c9_parse_failure_recovery_witness :
    dbSynthReady.run = some { query := "q", status := RunStatus.running } ∧
    (∃ db' s, run_llm_synthesis dbSynthReady collab0 = .ok db' ∧
      db'.run.map RunData.status = some RunStatus.completed ∧
      db'.steps = dbSynthReady.steps ++ [s] ∧
      ∃ persisted, s.output = .synthOut persisted ∧
        persisted.summary = "Failed to parse model output as JSON." ∧
        persisted.confidence = mkRat 1 5 ∧
        lookupMeta persisted.payloadMeta "parse_error"
          = some (.str "Expecting value: line 1 column 1 (char 0)")) :=
  ⟨rfl, c9_parse_failure_recovery dbSynthReady collab0
    { query := "q", status := RunStatus.running } "not json"
    "Expecting value: line 1 column 1 (char 0)"
    rfl rfl rfl rfl rfl rfl rfl⟩

/-- Witness: the event contract on the seeded run in dummy mode. -/
theorem c2_execute_event_contract_witness :
    dbSeeded.run.isSome = true ∧
    ((∀ db', execute dbSeeded .dummy collab0 = .ok db' →
       ∃ d : Int, 0 ≤ d ∧
         db'.events = dbSeeded.events ++ [startedEvent .dummy, completedEvent .dummy d]) ∧
    (∀ e db', execute dbSeeded .dummy collab0 = .error (e, db') →
       ∃ d : Int, 0 ≤ d ∧
         db'.events = dbSeeded.events ++ [startedEvent .dummy, failedEvent .dummy d e.message] ∧
         ∃ r, db'.run = some r ∧ r.status = .failed ∧
           r.errorMessage = some e.message)) :=
  ⟨rfl, c2_execute_event_contract dbSeeded .dummy collab0 rfl⟩

/-- Witness: idempotence after a concrete successful dummy execute. -/
theorem c3_execute_idempotent_witness :
    execute dbSeeded .dummy collab0 = .ok dbAfterFirstExecute ∧
    (∃ db2, execute dbAfterFirstExecute .dummy collab0 = .ok db2 ∧
      db2.steps = dbAfterFirstExecute.steps ∧
      db2.sources = dbAfterFirstExecute.sources ∧
      db2.run.map RunData.status = dbAfterFirstExecute.run.map RunData.status ∧
      ∃ d : Int, 0 ≤ d ∧
        db2.events = dbAfterFirstExecute.events ++
          [startedEvent .dummy, completedEvent .dummy d]) := by
  have hfirst : execute dbSeeded .dummy collab0 = .ok dbAfterFirstExecute := by
    unfold dbAfterFirstExecute
    rfl
  exact ⟨hfirst, c3_execute_idempotent dbSeeded dbAfterFirstExecute .dummy collab0 collab0 hfirst⟩

/-! ## C6: reader partial-failure contract -/

/-- Slicing a string to its first n characters yields at most n characters. -/
theorem pyLen_pySlice_le (s : String) (n : Nat) : pyLen (pySlice s n) ≤ n := by
  show (s.toList.take n).length ≤ n
  exact List.length_take_le n s.toList

/-- Stripping whitespace never lengthens a string. -/
theorem pyLen_pyStrip_le (s : String) : pyLen (pyStrip s) ≤ pyLen s := by
  show (((s.toList.dropWhile isPySpace).reverse.dropWhile isPySpace).reverse).length
    ≤ s.toList.length
  rw [List.length_reverse]
  calc ((s.toList.dropWhile isPySpace).reverse.dropWhile isPySpace).length
      ≤ (s.toList.dropWhile isPySpace).reverse.length :=
        (List.dropWhile_sublist _).length_le
    _ = (s.toList.dropWhile isPySpace).length := List.length_reverse _
    _ ≤ s.toList.length := (List.dropWhile_sublist _).length_le

/-- Model of basic_summary: the summary is at most max_chars characters long. -/
theorem basic_summary_len_le (text : String) (n : Nat) :
    pyLen (basic_summary text n) ≤ n := by
  unfold basic_summary
  split
  · simp [pyLen, pySlice]
  · exact le_trans (pyLen_pyStrip_le _) (pyLen_pySlice_le _ _)

/-- Reading a single source either leaves it unchanged (on failure) or
produces a bounded source, contributes exactly one unit to
read_count + failures, and any recorded failure names that source's URL. -/
theorem read_one_spec (c : Collab) (s : Src) :
    ((read_one c s).1 = s ∨ boundedSrc (read_one c s).1) ∧
    (read_one c s).2.1 + (read_one c s).2.2.length = 1 ∧
    ∀ p ∈ (read_one c s).2.2, p.1 = s.url := by
  unfold read_one
  cases validate_url s.url with
  | error e => simp
  | ok u =>
    cases c.fetchText s.url with
    | error m => simp
    | ok text =>
      dsimp only []
      split
      · simp
      · refine ⟨Or.inr ?_, by simp, by simp⟩
        constructor
        · show pyLen (pySlice (pyStrip text) 20000) ≤ 20000
          exact pyLen_pySlice_le _ _
        · show pyLen (basic_summary (pyStrip text) 900) ≤ 900
          exact basic_summary_len_le _ _

/-- Processing the source list updates sources element-wise (unchanged or
bounded), reads exactly the first n unread sources counting successes plus
failures, and every failure entry names a URL from the input list. -/
theorem processSources_spec (c : Collab) (l : List Src) :
    ∀ n : Nat,
      List.Forall₂ (fun a b => b = a ∨ boundedSrc b) l (processSources c l n).1 ∧
      (processSources c l n).2.1 + (processSources c l n).2.2.length
        = ((l.filter isUnread).take n).length ∧
      ∀ p ∈ (processSources c l n).2.2, p.1 ∈ l.map Src.url := by
  induction l with
  | nil =>
    intro n
    simp [processSources]
  | cons s rest ih =>
    intro n
    by_cases hc : (n ≠ 0 && isUnread s) = true
    · have hc' : ¬n = 0 ∧ isUnread s = true := by simpa using hc
      have hn : n ≠ 0 := hc'.1
      have hu : isUnread s = true := hc'.2
      rcases hro : read_one c s with ⟨s1, r1, f1⟩
      rcases hps : processSources c rest (n - 1) with ⟨l1, rc1, fl1⟩
      have hrw : processSources c (s :: rest) n = (s1 :: l1, r1 + rc1, f1 ++ fl1) := by
        unfold processSources
        rw [if_pos hc, hro, hps]
      obtain ⟨hone, hcnt1, hurl1⟩ := read_one_spec c s
      rw [hro] at hone hcnt1 hurl1
      dsimp only [] at hone hcnt1 hurl1
      obtain ⟨hfa, hcnt2, hurl2⟩ := ih (n - 1)
      rw [hps] at hfa hcnt2 hurl2
      dsimp only [] at hfa hcnt2 hurl2
      obtain ⟨m, rfl⟩ : ∃ m, n = m + 1 := ⟨n - 1, by omega⟩
      refine ⟨?_, ?_, ?_⟩
      · rw [hrw]
        exact List.Forall₂.cons hone hfa
      · rw [hrw]
        simp only [List.filter_cons, hu, if_true, List.take_succ_cons, List.length_cons]
        simp only [Nat.add_sub_cancel] at hcnt2
        simp only [List.length_append]
        omega
      · rw [hrw]
        intro p hp
        rcases List.mem_append.mp hp with hp1 | hp2
        · simp [hurl1 p hp1]
        · simp only [List.map_cons, List.mem_cons]
          exact Or.inr (hurl2 p hp2)
    · rcases hps : processSources c rest n with ⟨l1, rc1, fl1⟩
      have hrw : processSources c (s :: rest) n = (s :: l1, rc1, fl1) := by
        unfold processSources
        rw [if_neg (by simpa using hc), hps]
      obtain ⟨hfa, hcnt2, hurl2⟩ := ih n
      rw [hps] at hfa hcnt2 hurl2
      dsimp only [] at hfa hcnt2 hurl2
      have hcases : n = 0 ∨ isUnread s = false := by
        by_cases hn : n = 0
        · exact Or.inl hn
        · cases hu : isUnread s
          · exact Or.inr rfl
          · exact absurd (by simp [hn, hu]) hc
      refine ⟨?_, ?_, ?_⟩
      · rw [hrw]
        exact List.Forall₂.cons (Or.inl rfl) hfa
      · rw [hrw]
        rcases hcases with hn0 | hu0
        · subst hn0
          simpa using hcnt2
        · simp only [List.filter_cons, hu0, if_false]
          exact hcnt2
      · rw [hrw]
        intro p hp
        simp only [List.map_cons, List.mem_cons]
        exact Or.inr (hurl2 p hp)

/-- C6: when its preconditions hold and at least one unread source is in
scope, run_web_reader commits a completed reader step even if individual
URL fetches fail: the step output records attempted = read_count +
failed_count with at most 10 failure samples drawn from the run's own
source URLs, per-URL errors are recorded instead of propagating, and every
updated source has raw_content capped at 20000 characters and summary at
900 characters. -/
theorem c6_reader_partial_failure_contract (db : DB) (c : Collab) (limit : Nat)
    (r : RunData)
    (hrun : db.run = some r)
    (hsearch : hasStepType db .searcher = true)
    (hread : hasStepType db .reader = false)
    (hto : ((db.sources.filter isUnread).take limit).isEmpty = false) :
    ∃ db' s, run_web_reader db limit c = .ok db' ∧
      db'.steps = db.steps ++ [s] ∧
      s.status = .completed ∧
      (∃ a rc fc fl, s.output = .readerOut a rc fc fl none ∧
        a = rc + fc ∧ fl.length ≤ 10 ∧
        (∀ p ∈ fl, p.1 ∈ db.sources.map Src.url)) ∧
      List.Forall₂ (fun old new => new = old ∨ boundedSrc new)
        db.sources db'.sources := by
  rcases hps : processSources c db.sources limit with ⟨l1, rc1, fl1⟩
  obtain ⟨hfa, hcnt, hurl⟩ := processSources_spec c db.sources limit
  rw [hps] at hfa hcnt hurl
  dsimp only [] at hfa hcnt hurl
  unfold run_web_reader
  rw [hrun]
  simp only [hsearch, hread, Bool.not_true, Bool.false_eq_true, if_false, hto, tick, hps,
    reduceIte]
  refine ⟨_, _, rfl, rfl, rfl, ⟨_, _, _, _, rfl, ?_, ?_, ?_⟩, hfa⟩
  · exact hcnt.symm
  · exact List.length_take_le _ _
  · intro p hp
    exact hurl p (List.take_subset _ _ hp)

/-- Closed witness for C6 on the dbReadReady fixture with limit 5. -/
theorem c6_reader_partial_failure_contract_witness :
    dbReadReady.run = some { query := "q", status := .running } ∧
    hasStepType dbReadReady .searcher = true ∧
    hasStepType dbReadReady .reader = false ∧
    ((dbReadReady.sources.filter isUnread).take 5).isEmpty = false ∧
    (∃ db' s, run_web_reader dbReadReady 5 collab0 = .ok db' ∧
      db'.steps = dbReadReady.steps ++ [s] ∧
      s.status = .completed ∧
      (∃ a rc fc fl, s.output = .readerOut a rc fc fl none ∧
        a = rc + fc ∧ fl.length ≤ 10 ∧
        (∀ p ∈ fl, p.1 ∈ dbReadReady.sources.map Src.url)) ∧
      List.Forall₂ (fun old new => new = old ∨ boundedSrc new)
        dbReadReady.sources db'.sources) :=
  ⟨rfl, by decide, by decide, by decide,
   c6_reader_partial_failure_contract dbReadReady collab0 5
     { query := "q", status := .running } rfl (by decide) (by decide) (by decide)⟩

end InquiryOS
